import Mathlib

/-!
Verification development for the watchlist-to-Plex sync program (src/app.py).

The Python source is embedded shallowly:

* JSON values handled by the program are modelled by the inductive `Json`.
* Python library behaviour that the program relies on is modelled by small
  total functions (`jsonTruthy` for truthiness, `pyEq` for `==`, `pyIn` for
  the `in` operator, `pyIndexStr`/`pyIndexJson` for subscripting, `pyIter`
  for iteration, `pyGetD` for `dict.get`).  Operations that can raise a
  Python exception are modelled in `Except Unit`; a raised exception that the
  source catches with a bare `except` is folded back into the translated
  control flow exactly where the enclosing `try` sits in the source.
* HTTP traffic is modelled by stub parameters: a stub value of `none` stands
  for a timeout, a non-2xx response observed through `raise_for_status`, or
  any other raised request error; `some j` stands for a successful response
  whose parsed JSON body is `j`.
* Results of `re.findall` / BeautifulSoup DOM queries over the fetched page
  are passed in as data (the page oracle); the program logic that consumes
  them is translated from the source.
-/

/-- JSON values (and the Python values the program builds from them).
Numbers are modelled as integers: every numeric field the program touches
(TMDB ids, provider ids, HTTP status codes, years) is integral. -/
inductive Json where
  | null : Json
  | bool : Bool → Json
  | num : Int → Json
  | str : String → Json
  | arr : List Json → Json
  | obj : List (String × Json) → Json

namespace Json

/-- First value bound to key `k` in an association list (Python dict lookup;
the program only ever builds dicts with distinct keys). -/
def lookup? (kvs : List (String × Json)) (k : String) : Option Json :=
  match kvs with
  | [] => none
  | (k0, v) :: rest => if k0 = k then some v else lookup? rest k

/-- Whether key `k` is present (Python `k in d` for a dict). -/
def hasKey (kvs : List (String × Json)) (k : String) : Bool :=
  match kvs with
  | [] => false
  | (k0, _) :: rest => k0 = k || hasKey rest k

/-- Python truthiness of a value. -/
def jsonTruthy : Json → Bool
  | .null => false
  | .bool b => b
  | .num n => n != 0
  | .str s => s != ""
  | .arr xs => !xs.isEmpty
  | .obj kvs => !kvs.isEmpty

/-- Python `str()` of a value.  Scalars are rendered exactly as Python does;
container rendering is abbreviated (no verified property inspects the text
of a stringified container, only whether it is empty, and Python never
renders a container as the empty string). -/
def pyToString : Json → String
  | .null => "None"
  | .bool true => "True"
  | .bool false => "False"
  | .num n => toString n
  | .str s => s
  | .arr _ => "[...]"
  | .obj _ => "\x7b...\x7d"

mutual
/-- Python `==` between two values.  Numeric/boolean cross-type equality
follows Python (`True == 1`) and lists compare elementwise; Python also
compares dicts by unordered contents, which is modelled as unequal (no
verified property compares dict-valued fields). -/
def pyEq : Json → Json → Bool
  | .null, .null => true
  | .bool a, .bool b => a == b
  | .bool a, .num n => (if a then (1 : Int) else 0) == n
  | .num n, .bool b => n == (if b then (1 : Int) else 0)
  | .num m, .num n => m == n
  | .str s, .str t => s == t
  | .arr xs, .arr ys => pyEqList xs ys
  | _, _ => false

/-- Elementwise Python `==` on lists. -/
def pyEqList : List Json → List Json → Bool
  | [], [] => true
  | x :: xs, y :: ys => pyEq x y && pyEqList xs ys
  | _, _ => false
end

end Json

/-- Prefix test on character lists (models Python `str.startswith` via
`pyStartsWith` below). -/
def listPrefix : List Char → List Char → Bool
  | [], _ => true
  | _ :: _, [] => false
  | p :: ps, c :: cs => p == c && listPrefix ps cs

/-- Python `s.startswith(p)`. -/
def pyStartsWith (s p : String) : Bool := listPrefix p.toList s.toList

/-- Substring occurrence of `needle` in the list `hay`. -/
def listSub (needle : List Char) : List Char → Bool
  | [] => needle.isEmpty
  | c :: cs => listPrefix needle (c :: cs) || listSub needle cs

/-- Python `needle in hay` for strings. -/
def containsSub (hay needle : String) : Bool := listSub needle.toList hay.toList

/-- The spec pattern `tt` followed by one or more digits and nothing else
(the regex `tt` then one-or-more digits, anchored at both ends). -/
def isTtId (s : String) : Bool :=
  listPrefix ['t', 't'] s.toList && !(s.toList.drop 2).isEmpty &&
    (s.toList.drop 2).all Char.isDigit

/-- Python membership `key in container` (TypeError on other containers is
modelled as `Except.error`). -/
def pyInJson (key : Json) : Json → Except Unit Bool
  | .obj kvs => .ok (kvs.any fun kv => Json.pyEq (.str kv.1) key)
  | .arr xs => .ok (xs.any fun x => Json.pyEq x key)
  | .str s =>
    match key with
    | .str k => .ok (containsSub s k)
    | _ => .error ()
  | _ => .error ()

/-- Python `k in container` with a string key. -/
def pyIn (k : String) (c : Json) : Except Unit Bool := pyInJson (.str k) c

/-- Python subscript `container[k]` with a string key (KeyError / TypeError
modelled as `Except.error`). -/
def pyIndexStr (j : Json) (k : String) : Except Unit Json :=
  match j with
  | .obj kvs =>
    match Json.lookup? kvs k with
    | some v => .ok v
    | none => .error ()
  | _ => .error ()

/-- First value in an association list whose key is Python-equal to `key`. -/
def lookupEq (kvs : List (String × Json)) (key : Json) : Option Json :=
  match kvs with
  | [] => none
  | (k, v) :: rest => if Json.pyEq (.str k) key then some v else lookupEq rest key

/-- Python subscript `container[key]` with an arbitrary key: dict lookup,
integer (or boolean) indexing of lists and strings, everything else raises. -/
def pyIndexJson (j : Json) (key : Json) : Except Unit Json :=
  match j with
  | .obj kvs =>
    match lookupEq kvs key with
    | some v => .ok v
    | none => .error ()
  | .arr xs =>
    match key with
    | .num n =>
      if h : 0 ≤ n ∧ n.toNat < xs.length then .ok (xs.get ⟨n.toNat, h.2⟩)
      else if h2 : 0 ≤ n + xs.length ∧ n < 0 then .ok (xs.get ⟨(n + xs.length).toNat, by omega⟩)
      else .error ()
    | .bool b =>
      let n : Int := if b then 1 else 0
      if h : 0 ≤ n ∧ n.toNat < xs.length then .ok (xs.get ⟨n.toNat, h.2⟩)
      else .error ()
    | _ => .error ()
  | .str s =>
    match key with
    | .num n =>
      if 0 ≤ n ∧ n.toNat < s.length then .ok (.str (String.mk [s.toList.getD n.toNat ' ']))
      else .error ()
    | _ => .error ()
  | _ => .error ()

/-- Python iteration `for x in container` (lists yield elements, strings
yield one-character strings, dicts yield their keys, the rest raises). -/
def pyIter : Json → Except Unit (List Json)
  | .arr xs => .ok xs
  | .str s => .ok (s.toList.map fun c => .str (String.mk [c]))
  | .obj kvs => .ok (kvs.map fun kv => .str kv.1)
  | _ => .error ()

/-- Python `d.get(k, default)`; raises (AttributeError) when `d` is not a
dict. -/
def pyGetD (j : Json) (k : String) (d : Json) : Except Unit Json :=
  match j with
  | .obj kvs => .ok ((Json.lookup? kvs k).getD d)
  | _ => .error ()

/-- Python `d.get(key)` with an arbitrary key and default `None`: raises for
non-dicts and for unhashable keys; non-string hashable keys never match a
JSON-derived dict (whose keys are strings). -/
def pyGetKey (j : Json) (key : Json) : Except Unit Json :=
  match j with
  | .obj kvs =>
    match key with
    | .arr _ => .error ()
    | .obj _ => .error ()
    | .str k => .ok ((Json.lookup? kvs k).getD .null)
    | _ => .ok .null
  | _ => .error ()

/-!
IMDB scraping layer (`scrape_watchlist_page`, src/app.py lines 89-229).

BeautifulSoup and `re` are library calls; their outputs over the fetched
page are supplied as data and the program logic consuming them is
translated from the source:

* `scripts` — the parsed bodies of the `application/json` script tags, in
  page order; `none` models a tag whose body `json.loads` rejects (or a
  missing body, where `json.loads(None)` raises), which the bare `except`
  at src/app.py line 144 turns into `continue`.
* `findFwd` — the `(title, id)` pairs produced by `re.findall` for the
  forward pattern at line 155; every captured id matches `tt\d+` by
  construction of the pattern (stated as a hypothesis where needed).
* `findRev` — the `(id, title)` pairs for the reverse pattern at line 173.
* `anchors` — the anchors whose href matches `/title/tt\d+` (line 194),
  with the stripped anchor text and the stripped text of the first
  h3/h2/h1 heading under the parent, when one exists.
-/

/-- An anchor returned by the DOM query at src/app.py line 194. -/
structure Anchor where
  href : String
  text : String
  heading : Option String

/-- An item dict built by the IMDB scraping code:
`{title, imdb_id, link}`.  `title` is kept as a `Json` value because the
embedded-JSON extraction can store a non-string there (src/app.py line
125 falls back to the raw `titleText.text` value for dict-shaped
`titleText`). -/
structure ScrapeItem where
  title : Json
  imdb_id : String
  link : String

/-- The link field built for every scraped item. -/
def imdbLink (id : String) : String := "https://www.imdb.com/title/" ++ id ++ "/"

/-- The body check of `extract_from_dict` for one dict node (src/app.py
lines 123-134): when the node carries both `titleText` and `id`, a truthy
title and a string id with the `tt` prefix that was not seen before are
appended; a non-string id under a truthy title raises (`none`), since
`startswith` is called on it. -/
def objHeadStep (kvs : List (String × Json)) (items : List ScrapeItem)
    (seen : List String) : Option (List ScrapeItem × List String) :=
  if Json.hasKey kvs "titleText" && Json.hasKey kvs "id" then
    let title_obj := (Json.lookup? kvs "titleText").getD (.obj [])
    let idj := (Json.lookup? kvs "id").getD (.str "")
    let titleVal : Json :=
      match title_obj with
      | .obj d => (Json.lookup? d "text").getD (.str "")
      | t => .str (Json.pyToString t)
    if Json.jsonTruthy titleVal then
      match idj with
      | .str s =>
        if pyStartsWith s "tt" && !seen.contains s then
          some (items ++ [⟨titleVal, s, imdbLink s⟩], seen ++ [s])
        else
          some (items, seen)
      | _ => none
    else some (items, seen)
  else some (items, seen)

mutual
/-- The recursive `extract_from_dict` helper (src/app.py lines 120-141),
threading the `items` list and `seen_ids` set.  The returned flag is true
when the traversal raised (the only raising operation is
`imdb_id.startswith` on a non-string id, line 128); the raise aborts the
rest of the traversal but keeps the items appended so far, exactly as the
enclosing `try` at line 115 does. -/
def extractFromJson (j : Json) (items : List ScrapeItem) (seen : List String) :
    List ScrapeItem × List String × Bool :=
  match j with
  | .obj kvs =>
    match objHeadStep kvs items seen with
    | none => (items, seen, true)
    | some (its, sn) => extractKVs kvs its sn
  | .arr xs => extractJsonList xs items seen
  | _ => (items, seen, false)

/-- Recursion of `extract_from_dict` over the values of a dict. -/
def extractKVs (kvs : List (String × Json)) (items : List ScrapeItem) (seen : List String) :
    List ScrapeItem × List String × Bool :=
  match kvs with
  | [] => (items, seen, false)
  | (_, v) :: rest =>
    match extractFromJson v items seen with
    | (its, sn, true) => (its, sn, true)
    | (its, sn, false) => extractKVs rest its sn

/-- Recursion of `extract_from_dict` over the elements of a list. -/
def extractJsonList (xs : List Json) (items : List ScrapeItem) (seen : List String) :
    List ScrapeItem × List String × Bool :=
  match xs with
  | [] => (items, seen, false)
  | x :: rest =>
    match extractFromJson x items seen with
    | (its, sn, true) => (its, sn, true)
    | (its, sn, false) => extractJsonList rest its sn
end

/-- One step of the regex extraction loops (src/app.py lines 158-165 and
176-183): skip ids already seen, otherwise append. -/
def regexStep (st : List ScrapeItem × List String) (title id : String) :
    List ScrapeItem × List String :=
  if st.2.contains id then st
  else (st.1 ++ [⟨.str title, id, imdbLink id⟩], st.2 ++ [id])

/-- Leftmost `re.search` capture of the pattern `/title/(tt\d+)`: the first
occurrence of the literal `/title/tt` followed by at least one digit,
capturing `tt` plus the maximal digit run. -/
def titleIdSearch : List Char → Option String
  | [] => none
  | c :: cs =>
    if listPrefix "/title/tt".toList (c :: cs) then
      let rest := (c :: cs).drop 9
      let ds := rest.takeWhile Char.isDigit
      if ds.isEmpty then titleIdSearch cs else some ("tt" ++ String.mk ds)
    else titleIdSearch cs

/-- The id capture of the DOM fallback for one anchor. -/
def searchTitleId (href : String) : Option String := titleIdSearch href.toList

/-- Title selection of the DOM fallback (src/app.py lines 209-219): the
anchor text, else a parent heading, else `IMDB:<id>`; a title of fewer
than two characters counts as missing. -/
def domTitle (a : Anchor) (id : String) : String :=
  let t0 := a.text
  let t1 := if t0.length < 2 then a.heading.getD t0 else t0
  if t1.length < 2 then "IMDB:" ++ id else t1

/-- One step of the DOM fallback loop (src/app.py lines 197-225). -/
def domStep (st : List ScrapeItem × List String) (a : Anchor) :
    List ScrapeItem × List String :=
  match searchTitleId a.href with
  | none => st
  | some id =>
    if st.2.contains id then st
    else (st.1 ++ [⟨.str (domTitle a id), id, imdbLink id⟩], st.2 ++ [id])

/-- `scrape_watchlist_page` (src/app.py lines 89-229): embedded-JSON
extraction, then the two regex scans while fewer than 50 items were found,
then the DOM fallback when nothing at all was found.  Only a top-level
dict is passed to `extract_from_dict` (line 118). -/
def scrapeSt (scripts : List (Option Json))
    (findFwd findRev : List (String × String)) (anchors : List Anchor) :
    List ScrapeItem × List String :=
  let st : List ScrapeItem × List String :=
    scripts.foldl (fun st sc =>
      match sc with
      | some (Json.obj kvs) =>
        let r := extractFromJson (Json.obj kvs) st.1 st.2
        (r.1, r.2.1)
      | _ => st) ([], [])
  let st := if st.1.length < 50 then
      findFwd.foldl (fun st p => regexStep st p.1 p.2) st
    else st
  let st := if st.1.length < 50 then
      findRev.foldl (fun st p => regexStep st p.2 p.1) st
    else st
  let st := if st.1.isEmpty then anchors.foldl domStep st else st
  st

/-- The item list returned by `scrape_watchlist_page`. -/
def scrape_watchlist_page (scripts : List (Option Json))
    (findFwd findRev : List (String × String)) (anchors : List Anchor) :
    List ScrapeItem :=
  (scrapeSt scripts findFwd findRev anchors).1

/-- Strip of leading and trailing double quotes (Python `str.strip` with a quote argument). -/
def stripQuotes (s : String) : String :=
  String.mk (((s.toList.dropWhile (· == '"')).reverse.dropWhile (· == '"')).reverse)

/-- Last index of a header containing `needle` (the loop at src/app.py
lines 307-311 overwrites the index on every hit). -/
def lastIdxContaining (headers : List String) (needle : String) : Option Nat :=
  headers.enum.foldl (fun acc ih => if containsSub ih.2 needle then some ih.1 else acc) none

/-- `parse_csv_export` (src/app.py lines 294-330).  Present in the source
but never called by any fetcher. -/
def parse_csv_export (csv_text : String) : List ScrapeItem :=
  let lines := csv_text.trim.splitOn "\n"
  if lines.length < 2 then []
  else
    let headers := (lines.headD "").splitOn ","
    match lastIdxContaining headers "Const" with
    | none => []
    | some const_idx =>
      let title_idx := lastIdxContaining headers "Title"
      (lines.drop 1).foldl (fun items line =>
        let parts := line.splitOn ","
        if parts.length > const_idx then
          let imdb_id := stripQuotes (parts.getD const_idx "")
          let title :=
            match title_idx with
            | some ti =>
              if ti != 0 && parts.length > ti then stripQuotes (parts.getD ti "")
              else imdb_id
            | none => imdb_id
          if pyStartsWith imdb_id "tt" then
            items ++ [⟨.str title, imdb_id, imdbLink imdb_id⟩]
          else items
        else items) []

/-!
Availability checker (`check_streaming_availability`, src/app.py lines
550-630).  The watch-providers HTTP responses are supplied by a stub
indexed by call number (the request URL does not vary across the region
loop); `none` models a request failure.  The whole body sits in one `try`
whose handler returns `(False, [])`.
-/

/-- Append a normalized service to the bucket of its region, creating the
bucket at the end on first sight (insertion-ordered dict,
`regions_to_check` at src/app.py lines 560-577).  Region keys are compared
with Python equality. -/
def addBucket (buckets : List (Json × List (List (String × Json)))) (region : Json)
    (svc : List (String × Json)) : List (Json × List (List (String × Json))) :=
  match buckets with
  | [] => [(region, [svc])]
  | (r, ss) :: rest =>
    if Json.pyEq r region then (r, ss ++ [svc]) :: rest
    else (r, ss) :: addBucket rest region svc

/-- The grouping loop at src/app.py lines 561-577: a bare integer entry is
normalized to `{id: n, region: "US"}` (Python treats a boolean as an
integer here, since `bool` is a subtype of `int`), a dict entry keeps its
own fields with region defaulting to `"US"`, anything else is skipped with
a warning.  An unhashable region value raises (at the dict-membership
test) and the error is the enclosing try/except of the checker. -/
def groupServicesAux : List Json → List (Json × List (List (String × Json))) →
    Except Unit (List (Json × List (List (String × Json))))
  | [], buckets => .ok buckets
  | s :: rest, buckets =>
    match s with
    | .num n => groupServicesAux rest (addBucket buckets (.str "US") [("id", .num n), ("region", .str "US")])
    | .bool b => groupServicesAux rest (addBucket buckets (.str "US") [("id", .bool b), ("region", .str "US")])
    | .obj kvs =>
      match (Json.lookup? kvs "region").getD (.str "US") with
      | .arr _ => .error ()
      | .obj _ => .error ()
      | region => groupServicesAux rest (addBucket buckets region kvs)
    | _ => groupServicesAux rest buckets

/-- Normalized region grouping of the configured services. -/
def groupServices (streaming_services : List Json) :
    Except Unit (List (Json × List (List (String × Json)))) :=
  groupServicesAux streaming_services []

/-- One provider entry of the flatrate list (src/app.py lines 600-622):
non-dict entries are skipped with a warning, falsy provider ids are
skipped, and a provider id equal to a configured service id of this region
appends the label "provider_name (region)" if not already present. -/
def providerStep (region : Json) (services : List (List (String × Json)))
    (acc : List String) (provider : Json) : List String :=
  match provider with
  | .obj kvs =>
    let pid := (Json.lookup? kvs "provider_id").getD .null
    let pname := (Json.lookup? kvs "provider_name").getD (.str "Unknown")
    if !Json.jsonTruthy pid then acc
    else
      services.foldl (fun acc2 svc =>
        let sid := (Json.lookup? svc "id").getD .null
        if Json.pyEq pid sid then
          let name := Json.pyToString pname ++ " (" ++ Json.pyToString region ++ ")"
          if acc2.contains name then acc2 else acc2 ++ [name]
        else acc2) acc
  | _ => acc

/-- Body of one iteration of the region loop (src/app.py lines 582-622)
given the parsed response `data`.  The debug log at line 589 evaluates
`data.get("results", {}).keys()` (raising on a non-dict response or a
non-dict results field) and the log at line 596 evaluates
`region_data.get("flatrate", [])` (raising on a non-dict region entry),
both before the corresponding guards; `.ok` carries the updated label
accumulator, `.error` a raised exception. -/
def processRegion (region : Json) (services : List (List (String × Json)))
    (data : Json) (acc : List String) : Except Unit (List String) :=
  match pyGetD data "results" (.obj []) with
  | .error e => .error e
  | .ok rs =>
    match rs with
    | .obj _ =>
      match pyIn "results" data with
      | .error e => .error e
      | .ok hasRes =>
        if !hasRes then .ok acc
        else
          match pyIndexStr data "results" with
          | .error e => .error e
          | .ok results =>
            match pyInJson region results with
            | .error e => .error e
            | .ok hasReg =>
              if !hasReg then .ok acc
              else
                match pyIndexJson results region with
                | .error e => .error e
                | .ok region_data =>
                  match pyGetD region_data "flatrate" (.arr []) with
                  | .error e => .error e
                  | .ok _flatLog =>
                    match pyIn "flatrate" region_data with
                    | .error e => .error e
                    | .ok hasFlat =>
                      if !hasFlat then .ok acc
                      else
                        match pyIndexStr region_data "flatrate" with
                        | .error e => .error e
                        | .ok flat =>
                          match pyIter flat with
                          | .error e => .error e
                          | .ok provs =>
                            .ok (provs.foldl (providerStep region services) acc)
    | _ => .error ()

/-- The region loop (src/app.py lines 582-622).  Returns the outcome of the
loop together with the number of watch-providers requests issued (an
iteration that raises still issued its request when the raise came after
it). -/
def availLoop (stub : Nat → Option Json) :
    List (Json × List (List (String × Json))) → Nat → List String →
    Except Unit (List String) × Nat
  | [], _, acc => (.ok acc, 0)
  | (region, services) :: rest, callIdx, acc =>
    match stub callIdx with
    | none => (.error (), 1)
    | some data =>
      match processRegion region services data acc with
      | .error _ => (.error (), 1)
      | .ok acc2 =>
        let r := availLoop stub rest (callIdx + 1) acc2
        (r.1, r.2 + 1)

/-- `check_streaming_availability` (src/app.py lines 550-630): group the
configured services by region, query watch-providers once per region,
accumulate matching labels; any raised exception yields `(False, [])`.
The `tmdb_id`, `media_type` and `api_key` arguments only shape the request
URL, which the stub abstracts. -/
def check_streaming_availability (stub : Nat → Option Json) (tmdb_id : Json)
    (media_type : String) (api_key : String) (streaming_services : List Json) :
    Bool × List String :=
  match groupServices streaming_services with
  | .error _ => (false, [])
  | .ok buckets =>
    match (availLoop stub buckets 0 []).1 with
    | .error _ => (false, [])
    | .ok acc => (decide (0 < acc.length), acc)

/-- Number of watch-providers requests issued by one availability check. -/
def availabilityCalls (stub : Nat → Option Json) (streaming_services : List Json) : Nat :=
  match groupServices streaming_services with
  | .error _ => 0
  | .ok buckets => (availLoop stub buckets 0 []).2

/-- Normalized region of one configured service entry (`none` when the
entry is skipped as invalid). -/
def serviceRegion : Json → Option Json
  | .num _ => some (.str "US")
  | .bool _ => some (.str "US")
  | .obj kvs => some ((Json.lookup? kvs "region").getD (.str "US"))
  | _ => none

/-- The normalized regions appearing in the configuration, in order. -/
def configRegions (svcs : List Json) : List Json := svcs.filterMap serviceRegion

/-- First-occurrence deduplication by Python equality, relative to a list
of already-seen keys. -/
def pyDedupFrom (seen : List Json) : List Json → List Json
  | [] => []
  | x :: xs =>
    if seen.any (fun y => Json.pyEq y x) then pyDedupFrom seen xs
    else x :: pyDedupFrom (seen ++ [x]) xs

/-- First-occurrence deduplication by Python equality. -/
def pyDedup (l : List Json) : List Json := pyDedupFrom [] l

/-- All configured regions are hashable (no list- or dict-valued region),
so the grouping loop cannot raise. -/
def regionsHashable (svcs : List Json) : Bool :=
  svcs.all fun s =>
    match s with
    | .obj kvs =>
      match (Json.lookup? kvs "region").getD (.str "US") with
      | .arr _ => false
      | .obj _ => false
      | _ => true
    | _ => true

/-- A watch-providers response shape for which the region-loop body cannot
raise: a dict whose `results` field, when present, is a dict of dict
region entries whose `flatrate` field, when present, is a list. -/
def goodRegionData : Json → Bool
  | .obj kvs =>
    match Json.lookup? kvs "flatrate" with
    | none => true
    | some (.arr _) => true
    | some _ => false
  | _ => false

/-- A watch-providers response the checker consumes without raising. -/
def goodResp : Json → Bool
  | .obj kvs =>
    match Json.lookup? kvs "results" with
    | none => true
    | some (.obj rs) => rs.all fun kv => goodRegionData kv.2
    | some _ => false
  | _ => false

/-!
Item dicts and the remaining fetchers.
-/

/-- An item dict as consumed by the sync loop.  A field of `none` models a
dict in which the key is absent (the IMDB scraper builds
`{title, imdb_id, link}` dicts without the other keys); `Json.null` models
a present key bound to Python `None`. -/
structure PyItem where
  title : Json
  imdb_id : Json
  tmdb_id : Option Json := none
  media_type : Option Json := none
  year : Option Json := none

/-- View of a scraped item as a sync-loop item dict. -/
def ScrapeItem.toPyItem (it : ScrapeItem) : PyItem :=
  { title := it.title, imdb_id := .str it.imdb_id }

/-- Python `a or b`. -/
def pyOr (a b : Json) : Json := if Json.jsonTruthy a then a else b

/-- Python slicing `x[:4]` (defined for strings and lists, raising
otherwise). -/
def pySlice4 : Json → Except Unit Json
  | .str s => .ok (.str (String.mk (s.toList.take 4)))
  | .arr xs => .ok (.arr (xs.take 4))
  | _ => .error ()

/-- Entry loop of `get_tmdb_list` (src/app.py lines 434-446).  The boolean
is true when an iteration raised; the raise is caught by the except at
line 448 and the items accumulated so far are returned. -/
def tmdbListLoop : List Json → List PyItem → List PyItem × Bool
  | [], items => (items, false)
  | e :: rest, items =>
    match e with
    | .obj kvs =>
      let media_type := (Json.lookup? kvs "media_type").getD (.str "movie")
      let tmdb_id := (Json.lookup? kvs "id").getD .null
      let title := pyOr ((Json.lookup? kvs "title").getD .null)
        ((Json.lookup? kvs "name").getD (.str ""))
      let yearBase := pyOr (pyOr ((Json.lookup? kvs "release_date").getD .null)
        ((Json.lookup? kvs "first_air_date").getD .null)) (.str "")
      match pySlice4 yearBase with
      | .error _ => (items, true)
      | .ok year =>
        tmdbListLoop rest (items ++
          [{ title := title, imdb_id := .null, tmdb_id := some tmdb_id,
             media_type := some media_type, year := some year }])
    | _ => (items, true)

/-- `get_tmdb_list` (src/app.py lines 424-451).  `stub` is the response of
the single list-by-id request; every produced item has `imdb_id = None`
(line 444). -/
def get_tmdb_list (stub : Option Json) : List PyItem :=
  match stub with
  | none => []
  | some data =>
    match pyGetD data "items" (.arr []) with
    | .error _ => []
    | .ok itemsField =>
      match pyIter itemsField with
      | .error _ => []
      | .ok entries => (tmdbListLoop entries []).1

/-- Literal-prefix stripper for the hand-rolled regex scans. -/
def dropLit : List Char → List Char → Option (List Char)
  | [], cs => some cs
  | _ :: _, [] => none
  | p :: ps, c :: cs => if c == p then dropLit ps cs else none

/-- Leftmost match of `trakt\.tv/users/([^/]+)/watchlist` (src/app.py line
463), returning the captured username. -/
def traktWatchlistScan : List Char → Option String
  | [] => none
  | c :: cs =>
    match dropLit "trakt.tv/users/".toList (c :: cs) with
    | some rest =>
      let user := rest.takeWhile (fun ch => ch != '/')
      if !user.isEmpty && listPrefix "/watchlist".toList (rest.drop user.length) then
        some (String.mk user)
      else traktWatchlistScan cs
    | none => traktWatchlistScan cs

/-- Leftmost match of `trakt\.tv/users/([^/]+)/lists/([^/?]+)` (src/app.py
line 464), returning the captured username and list slug. -/
def traktCustomScan : List Char → Option (String × String)
  | [] => none
  | c :: cs =>
    match dropLit "trakt.tv/users/".toList (c :: cs) with
    | some rest =>
      let user := rest.takeWhile (fun ch => ch != '/')
      match dropLit "/lists/".toList (rest.drop user.length) with
      | some rest2 =>
        let slug := rest2.takeWhile (fun ch => ch != '/' && ch != '?')
        if !user.isEmpty && !slug.isEmpty then some (String.mk user, String.mk slug)
        else traktCustomScan cs
      | none => traktCustomScan cs
    | none => traktCustomScan cs

/-- Entry loop of `get_trakt_list` (src/app.py lines 493-511).  The
boolean is true when an iteration raised; the raise is caught by the
except at line 518 and the items accumulated so far are returned.  The
produced items carry the Trakt-supplied `ids.imdb` and `ids.tmdb` values
unchanged. -/
def traktEntryLoop : List Json → List PyItem → List PyItem × Bool
  | [], items => (items, false)
  | e :: rest, items =>
    match pyGetD e "type" (.str "movie") with
    | .error _ => (items, true)
    | .ok media_type =>
      match pyGetKey e media_type with
      | .error _ => (items, true)
      | .ok v1 =>
        match e with
        | .obj ekvs =>
          let obj := pyOr v1 (pyOr ((Json.lookup? ekvs "movie").getD .null)
            ((Json.lookup? ekvs "show").getD .null))
          if !Json.jsonTruthy obj then traktEntryLoop rest items
          else
            match pyGetD obj "ids" (.obj []) with
            | .error _ => (items, true)
            | .ok ids =>
              match pyGetD ids "imdb" .null with
              | .error _ => (items, true)
              | .ok imdb_id =>
                match pyGetD ids "tmdb" .null with
                | .error _ => (items, true)
                | .ok tmdb_id =>
                  match pyGetD obj "title" (.str ""), pyGetD obj "year" (.str "") with
                  | .ok title, .ok yearv =>
                    let plex_type := if Json.pyEq media_type (.str "show") then "tv" else "movie"
                    traktEntryLoop rest (items ++
                      [{ title := title, imdb_id := imdb_id, tmdb_id := some tmdb_id,
                         media_type := some (.str plex_type),
                         year := some (.str (Json.pyToString yearv)) }])
                  | _, _ => (items, true)
        | _ => (items, true)

/-- Pagination loop of `get_trakt_list` (src/app.py lines 483-516).  The
stub maps a page number to the parsed response body and the parsed
`X-Pagination-Page-Count` header (default 1 when absent); `none` models a
request failure, caught by the except at line 518 with the partial item
list returned.  `fuel` bounds the number of pages a run can visit (the
source loop is unbounded if the reported page count keeps growing); all
verified statements use runs whose termination is forced by the stub. -/
def traktPages (stub : Nat → Option (Json × Int)) : Nat → Nat → List PyItem → List PyItem
  | 0, _, items => items
  | fuel + 1, page, items =>
    match stub page with
    | none => items
    | some (entries, totalPages) =>
      if !Json.jsonTruthy entries then items
      else
        match pyIter entries with
        | .error _ => items
        | .ok es =>
          match traktEntryLoop es items with
          | (its, true) => its
          | (its, false) =>
            if (page : Int) ≥ totalPages then its
            else traktPages stub fuel (page + 1) its

/-- `get_trakt_list` (src/app.py lines 454-523): recognise the URL as a
user watchlist or a named list (both regex matches are computed, the
watchlist one wins), then paginate; an unrecognised URL yields `[]`. -/
def get_trakt_list (list_url : String) (stub : Nat → Option (Json × Int)) (fuel : Nat) :
    List PyItem :=
  match traktWatchlistScan list_url.toList with
  | some _user => traktPages stub fuel 1 []
  | none =>
    match traktCustomScan list_url.toList with
    | some _ => traktPages stub fuel 1 []
    | none => []

/-!
Identity resolver, Plex watchlist client, and the sync orchestrator.
-/

/-- `get_tmdb_data` (src/app.py lines 526-548): resolve an IMDB id through
the TMDB find endpoint.  `stub` is the response (`none` for a request
failure).  A movie result is preferred over a TV result; the returned
tuple is `(id, media_type, title, release-year)` with the raw `id` and
`title` values and the `[:4]` slice of the date; `none` models the
all-`None` tuple returned on no match or any raised exception. -/
def get_tmdb_data (stub : Option Json) : Option (Json × String × Json × Json) :=
  match stub with
  | none => none
  | some data =>
    match pyGetD data "movie_results" .null with
    | .error _ => none
    | .ok movie_results =>
      if Json.jsonTruthy movie_results then
        match pyIndexJson movie_results (.num 0) with
        | .error _ => none
        | .ok result =>
          match pyIndexStr result "id" with
          | .error _ => none
          | .ok id =>
            match pyGetD result "title" (.str ""), pyGetD result "release_date" (.str "") with
            | .ok title, .ok rd =>
              match pySlice4 rd with
              | .error _ => none
              | .ok y => some (id, "movie", title, y)
            | _, _ => none
      else
        match pyGetD data "tv_results" .null with
        | .error _ => none
        | .ok tv_results =>
          if Json.jsonTruthy tv_results then
            match pyIndexJson tv_results (.num 0) with
            | .error _ => none
            | .ok result =>
              match pyIndexStr result "id" with
              | .error _ => none
              | .ok id =>
                match pyGetD result "name" (.str ""), pyGetD result "first_air_date" (.str "") with
                | .ok name, .ok fad =>
                  match pySlice4 fad with
                  | .error _ => none
                  | .ok y => some (id, "tv", name, y)
                | _, _ => none
          else none

/-- `add_to_plex_watchlist` (src/app.py lines 701-727).  `searchRes` is
the outcome of `search_and_verify_plex` (a verified `(ratingKey, title)`
pair, or `none` when no candidate passed GUID verification or the search
raised); `putResp` is the status of the addToWatchlist PUT (`none` for a
raised request error).  Success is exactly HTTP 200 or 204. -/
def add_to_plex_watchlist (searchRes : Option (String × String)) (putResp : Option Nat) : Bool :=
  match searchRes with
  | none => false
  | some _ =>
    match putResp with
    | none => false
    | some code => code == 200 || code == 204

/-- `remove_from_plex_watchlist` (src/app.py lines 729-762): same search,
removeFromWatchlist PUT; 200/204 succeed, 404 (not on the watchlist) and
every other status fail without raising. -/
def remove_from_plex_watchlist (searchRes : Option (String × String)) (putResp : Option Nat) : Bool :=
  match searchRes with
  | none => false
  | some _ =>
    match putResp with
    | none => false
    | some code =>
      if code == 200 || code == 204 then true
      else if code == 404 then false
      else false

/-- Per-item HTTP outcomes consumed by one iteration of the sync loop.
`findResp` is the find-endpoint response, `extResp` the external-ids
response, `provStub` the watch-providers responses by call index, and
`plexSearch`/`plexPut` the Plex search outcome and action-PUT status for
whichever of add/remove the iteration performs. -/
structure ItemOracle where
  findResp : Option Json
  extResp : Option Json
  provStub : Nat → Option Json
  plexSearch : Option (String × String)
  plexPut : Option Nat

/-- One SyncResult record (src/app.py lines 942-950). -/
structure SyncResult where
  imdb_id : Json
  original_title : Json
  title : Json
  year : Json
  status : String
  streaming_services : List String
  error : Option String

/-- The TMDB id / media type / title / year resolution at src/app.py lines
953-973: items already carrying a truthy `tmdb_id` and `media_type` use
them (an unrecognised media type falls back to "movie"); otherwise the
find endpoint is consulted and a falsy resolved id means the "Not in
TMDB" failure (`none` here). -/
def resolveTmdb (item : PyItem) (o : ItemOracle) : Option (Json × Json × Json × Json) :=
  let tmdb0 := item.tmdb_id.getD .null
  let media0 := item.media_type.getD .null
  if Json.jsonTruthy tmdb0 && Json.jsonTruthy media0 then
    let mt := if Json.pyEq media0 (.str "movie") || Json.pyEq media0 (.str "tv") then media0
      else .str "movie"
    some (tmdb0, mt, item.title, item.year.getD (.str ""))
  else
    match get_tmdb_data o.findResp with
    | none => none
    | some (id, mt, t, y) => if Json.jsonTruthy id then some (id, .str mt, t, y) else none

/-- Whether the iteration consults the find endpoint (the else branch at
src/app.py line 963). -/
def resolverUsed (item : PyItem) : Bool :=
  !(Json.jsonTruthy (item.tmdb_id.getD .null) && Json.jsonTruthy (item.media_type.getD .null))

/-- The imdb backfill at src/app.py lines 986-994: run for every item
whose `imdb_id` is falsy, regardless of the availability outcome.
Returns (value used for Plex, value stored in the result record, whether
the external-ids request was made); a raised request error leaves both
values unchanged. -/
def backfillImdb (item : PyItem) (o : ItemOracle) : Json × Json × Bool :=
  if Json.jsonTruthy item.imdb_id then (item.imdb_id, item.imdb_id, false)
  else
    match o.extResp with
    | none => (item.imdb_id, item.imdb_id, true)
    | some data =>
      match pyGetD data "imdb_id" .null with
      | .error _ => (item.imdb_id, item.imdb_id, true)
      | .ok v => (v, v, true)

/-- Output of one sync-loop iteration: the appended result record plus
which outbound calls the iteration made. -/
structure ItemOut where
  result : SyncResult
  findCalled : Bool
  extCalled : Bool
  removeCalled : Bool
  addCalled : Bool
  availCalls : Nat

/-- One iteration of the per-item loop (src/app.py lines 939-1027). -/
def processItem (cfgServices : List Json) (api_key : String) (item : PyItem)
    (o : ItemOracle) : ItemOut :=
  let base : SyncResult :=
    { imdb_id := item.imdb_id, original_title := item.title, title := .null, year := .null,
      status := "processing", streaming_services := [], error := none }
  match resolveTmdb item o with
  | none =>
    { result := { base with status := "failed", error := some "Not in TMDB" },
      findCalled := resolverUsed item, extCalled := false, removeCalled := false,
      addCalled := false, availCalls := 0 }
  | some (tmdb_id, media_type, title, year) =>
    let base := { base with title := title, year := year }
    let avail := check_streaming_availability o.provStub tmdb_id
      (Json.pyToString media_type) api_key cfgServices
    let nAvail := availabilityCalls o.provStub cfgServices
    match backfillImdb item o with
    | (imdb, resImdb, extC) =>
      let base := { base with imdb_id := resImdb }
      if !Json.jsonTruthy imdb then
        { result := { base with status := "failed", error := some "No IMDB ID available" },
          findCalled := resolverUsed item, extCalled := extC, removeCalled := false,
          addCalled := false, availCalls := nAvail }
      else if avail.1 then
        let ok := remove_from_plex_watchlist o.plexSearch o.plexPut
        { result := { base with
            streaming_services := avail.2,
            status := if ok then "removed" else "skipped" },
          findCalled := resolverUsed item, extCalled := extC, removeCalled := true,
          addCalled := false, availCalls := nAvail }
      else
        let ok := add_to_plex_watchlist o.plexSearch o.plexPut
        { result := { base with
            status := if ok then "added" else "failed",
            error := if ok then none else some "Not in Plex or no IMDB match" },
          findCalled := resolverUsed item, extCalled := extC, removeCalled := false,
          addCalled := true, availCalls := nAvail }

/-- Sync configuration as read by `sync_watchlist` (src/app.py lines
879-896).  A missing key and an empty string are both falsy, so string
fields model both. -/
structure Config where
  listSource : String
  imdbListUrl : String
  tmdbListId : String
  traktListUrl : String
  traktApiKey : String
  plexToken : String
  tmdbApiKey : String
  streamingServices : List Json

/-- Outbound-call markers of one sync run.  `fetchList` stands for the
whole fetch performed by the selected fetcher, `providersLookup` for one
watch-providers request; the Plex search and action requests of one
add/remove attempt are summarised by one marker. -/
inductive NetEvent where
  | fetchList
  | tmdbFind
  | providersLookup
  | externalIds
  | plexRemove
  | plexAdd
deriving DecidableEq, Repr

/-- The outbound calls of one sync-loop iteration, in program order (the
availability lookups precede the external-ids backfill, src/app.py lines
978-994, which precedes the Plex action). -/
def itemTrace (out : ItemOut) : List NetEvent :=
  (if out.findCalled then [.tmdbFind] else []) ++
  List.replicate out.availCalls .providersLookup ++
  (if out.extCalled then [.externalIds] else []) ++
  (if out.removeCalled then [.plexRemove] else []) ++
  (if out.addCalled then [.plexAdd] else [])

/-- Observable outcome of one sync run: the persisted results list and
removed-counter (`none` when the run returned before the saves at
src/app.py lines 1029-1033, leaving the stores untouched), the log
messages the run added (validation errors verbatim; the post-validation
debug logging is summarised), and the outbound-call trace. -/
structure SyncOut where
  savedResults : Option (List SyncResult)
  savedRemoved : Option Nat
  logs : List String
  trace : List NetEvent

/-- The per-item loop over the fetched items, feeding each iteration its
own oracles. -/
def processAll (svcs : List Json) (api_key : String) :
    List PyItem → (Nat → ItemOracle) → List ItemOut
  | [], _ => []
  | it :: rest, os =>
    processItem svcs api_key it (os 0) :: processAll svcs api_key rest (fun n => os (n + 1))

/-- `sync_watchlist` (src/app.py lines 878-1037).  `fetched` is the item
list produced by the fetcher the configuration selects (its network
activity is the `fetchList` marker); validation failures return before
any request with a single error log and no saves; an empty fetch returns
after the fetch with no saves; otherwise every item is processed, the
results list is persisted wholesale and the removed-counter saved. -/
def sync_watchlist (config : Config) (fetched : List PyItem)
    (oracles : Nat → ItemOracle) : SyncOut :=
  if config.plexToken == "" || config.tmdbApiKey == "" then
    { savedResults := none, savedRemoved := none,
      logs := ["Configuration incomplete. Plex Token and TMDB API Key are required."],
      trace := [] }
  else if config.listSource == "imdb" && config.imdbListUrl == "" then
    { savedResults := none, savedRemoved := none,
      logs := ["IMDB List URL is required for IMDB source."], trace := [] }
  else if config.listSource == "tmdb" && config.tmdbListId == "" then
    { savedResults := none, savedRemoved := none,
      logs := ["TMDB List ID is required for TMDB source."], trace := [] }
  else if config.listSource == "trakt" &&
      !(config.traktListUrl != "" && config.traktApiKey != "") then
    { savedResults := none, savedRemoved := none,
      logs := ["Trakt List URL and Trakt API Key are required for Trakt source."], trace := [] }
  else if config.listSource == "imdb" || config.listSource == "tmdb" ||
      config.listSource == "trakt" then
    if fetched.isEmpty then
      { savedResults := none, savedRemoved := none,
        logs := ["No items found"], trace := [.fetchList] }
    else
      let outs := processAll config.streamingServices config.tmdbApiKey fetched oracles
      { savedResults := some (outs.map ItemOut.result),
        savedRemoved := some (outs.filter (fun o => o.result.status == "removed")).length,
        logs := ["sync complete"],
        trace := .fetchList :: (outs.map itemTrace).flatten }
  else
    { savedResults := none, savedRemoved := none,
      logs := ["Unknown list source: " ++ config.listSource], trace := [] }

/-!
IMDB watchlist fetcher (`get_imdb_export_data`, src/app.py lines 231-292,
and `get_imdb_list_data`, lines 359-404) with an explicit trace of the
IMDB endpoints it requests.
-/

/-- An endpoint requested by the IMDB fetcher.  `csvExport` and `rssFeed`
name the export/RSS endpoints so that their absence from a trace is
expressible; the source contains no request to either (`parse_csv_export`
has no caller). -/
inductive ImdbCall where
  | watchlistPage
  | listPage (id : String)
  | csvExport
  | rssFeed
deriving DecidableEq, Repr

/-- A fetched IMDB page, pre-digested for the scraping layer: HTTP status,
the script/regex/DOM oracles for `scrape_watchlist_page`, the value of
the first `data-list-id` attribute on the page (src/app.py lines 266-270),
and the first `ls\d{8,}` capture over the script bodies (lines 272-279). -/
structure ImdbPage where
  status : Nat
  scripts : List (Option Json)
  findFwd : List (String × String)
  findRev : List (String × String)
  anchors : List Anchor
  dataListId : Option String
  scriptLsId : Option String

/-- `get_imdb_list_data` (src/app.py lines 359-404): request the list
page, scrape it, return the items (or `[]` on a non-200 status, raised
request error, or empty scrape). -/
def get_imdb_list_data (listPg : Option ImdbPage) (list_id : String) :
    List ScrapeItem × List ImdbCall :=
  match listPg with
  | none => ([], [.listPage list_id])
  | some pg =>
    if pg.status == 200 then
      let items := scrape_watchlist_page pg.scripts pg.findFwd pg.findRev pg.anchors
      (items, [.listPage list_id])
    else ([], [.listPage list_id])

/-- `get_imdb_export_data` (src/app.py lines 231-292): request the user
watchlist page and scrape it; when the scrape yields nothing, look for a
list id on the page (`data-list-id` attribute, then an `ls`-id in a
script) and retry through `get_imdb_list_data`; otherwise return `[]`. -/
def get_imdb_export_data (userPg : Option ImdbPage) (listPg : Option ImdbPage) :
    List ScrapeItem × List ImdbCall :=
  match userPg with
  | none => ([], [.watchlistPage])
  | some pg =>
    if pg.status != 200 then ([], [.watchlistPage])
    else
      let items := scrape_watchlist_page pg.scripts pg.findFwd pg.findRev pg.anchors
      if !items.isEmpty then (items, [.watchlistPage])
      else
        match pg.dataListId with
        | some lid =>
          let r := get_imdb_list_data listPg lid
          (r.1, .watchlistPage :: r.2)
        | none =>
          match pg.scriptLsId with
          | some lid =>
            let r := get_imdb_list_data listPg lid
            (r.1, .watchlistPage :: r.2)
          | none => ([], [.watchlistPage])

/-!
General lemmas.
-/

/-- Fold invariant preservation for the scraping accumulators. -/
theorem foldl_preserves {α σ : Type} (P : σ → Prop) (f : σ → α → σ) :
    ∀ (l : List α) (s : σ), (∀ a ∈ l, ∀ st, P st → P (f st a)) → P s → P (l.foldl f s)
  | [], s, _, hs => hs
  | a :: l, s, hstep, hs =>
    foldl_preserves P f l (f s a) (fun b hb st hst => hstep b (List.mem_cons_of_mem a hb) st hst)
      (hstep a (List.mem_cons_self a l) s hs)

/-- `hasKey` agrees with `lookup?`. -/
theorem hasKey_iff_lookup (kvs : List (String × Json)) (k : String) :
    Json.hasKey kvs k = true ↔ (Json.lookup? kvs k).isSome = true := by
  induction kvs with
  | nil => simp [Json.hasKey, Json.lookup?]
  | cons kv rest ih =>
    obtain ⟨k0, v⟩ := kv
    by_cases h : k0 = k <;> simp [Json.hasKey, Json.lookup?, h, ih]

/-- A successful `lookupEq` result is a value of the list. -/
theorem lookupEq_mem (kvs : List (String × Json)) (key : Json) (v : Json)
    (h : lookupEq kvs key = some v) : ∃ k, (k, v) ∈ kvs := by
  induction kvs with
  | nil => simp [lookupEq] at h
  | cons kv rest ih =>
    obtain ⟨k0, v0⟩ := kv
    by_cases hk : Json.pyEq (.str k0) key = true
    · simp [lookupEq, hk] at h
      exact ⟨k0, by simp [h]⟩
    · simp [lookupEq, hk] at h
      obtain ⟨k, hmem⟩ := ih h
      exact ⟨k, List.mem_cons_of_mem _ hmem⟩

/-- A positive membership test yields a successful `lookupEq`. -/
theorem lookupEq_of_any (kvs : List (String × Json)) (key : Json)
    (h : (kvs.any fun kv => Json.pyEq (.str kv.1) key) = true) :
    ∃ v, lookupEq kvs key = some v := by
  induction kvs with
  | nil => simp at h
  | cons kv rest ih =>
    obtain ⟨k0, v0⟩ := kv
    by_cases hk : Json.pyEq (.str k0) key = true
    · exact ⟨v0, by simp [lookupEq, hk]⟩
    · simp only [List.any_cons, Bool.or_eq_true] at h
      rcases h with h | h
      · exact absurd h hk
      · obtain ⟨v, hv⟩ := ih h
        exact ⟨v, by simp [lookupEq, hk, hv]⟩

/-!
Claim C10 — the availability flag equals non-emptiness of the label list.
-/

/-- C10: for every input and every stubbed provider response, the boolean
returned by `check_streaming_availability` equals the non-emptiness of
the returned label list: either `(true, labels)` with `labels` non-empty,
or `(false, [])`. -/
theorem availability_flag_iff_labels (stub : Nat → Option Json) (tmdb_id : Json)
    (media_type api_key : String) (svcs : List Json) :
    ((check_streaming_availability stub tmdb_id media_type api_key svcs).1 = true ↔
      (check_streaming_availability stub tmdb_id media_type api_key svcs).2 ≠ []) := by
  unfold check_streaming_availability
  cases h1 : groupServices svcs with
  | error e => simp
  | ok buckets =>
    cases h2 : (availLoop stub buckets 0 []).1 with
    | error e => simp [h2]
    | ok acc => simp [h2, List.length_pos]

/-!
Claim C6 — a bare integer service entry behaves like the structured entry.
-/

/-- The grouping loop processes a concatenation left to right. -/
theorem groupServicesAux_append (l1 l2 : List Json) (b : List (Json × List (List (String × Json)))) :
    groupServicesAux (l1 ++ l2) b =
      match groupServicesAux l1 b with
      | .error e => .error e
      | .ok b2 => groupServicesAux l2 b2 := by
  induction l1 generalizing b with
  | nil => rfl
  | cons s rest ih =>
    cases s with
    | null => simpa [groupServicesAux] using ih _
    | bool v => simpa [groupServicesAux] using ih _
    | num n => simpa [groupServicesAux] using ih _
    | str v => simpa [groupServicesAux] using ih _
    | arr xs => simpa [groupServicesAux] using ih _
    | obj kvs =>
      simp only [List.cons_append, groupServicesAux]
      cases (Json.lookup? kvs "region").getD (.str "US") with
      | arr xs => rfl
      | obj o => rfl
      | null => exact ih _
      | bool v => exact ih _
      | num n => exact ih _
      | str v => exact ih _

/-- C6: a `streamingServices` entry that is the bare integer 8 yields the
same availability result as `{id: 8, region: "US"}` in its place, for
every surrounding configuration, every item and every stubbed response
sequence. -/
theorem legacy_int_service_entry (stub : Nat → Option Json) (tmdb_id : Json)
    (media_type api_key : String) (pre post : List Json) :
    check_streaming_availability stub tmdb_id media_type api_key (pre ++ .num 8 :: post) =
      check_streaming_availability stub tmdb_id media_type api_key
        (pre ++ .obj [("id", .num 8), ("region", .str "US")] :: post) := by
  have hgroup : groupServices (pre ++ .num 8 :: post) =
      groupServices (pre ++ .obj [("id", .num 8), ("region", .str "US")] :: post) := by
    unfold groupServices
    rw [groupServicesAux_append, groupServicesAux_append]
    cases groupServicesAux pre [] with
    | error e => rfl
    | ok b2 => rfl
  unfold check_streaming_availability
  rw [hgroup]

/-!
Claim C7 — any request failure makes the availability check return
`(false, [])`.
-/

/-- Number of region buckets the availability check will iterate over. -/
def regionCount (svcs : List Json) : Nat :=
  match groupServices svcs with
  | .error _ => 0
  | .ok buckets => buckets.length

/-- If the region loop reaches a failing request it raises. -/
theorem availLoop_fail (stub : Nat → Option Json) :
    ∀ (buckets : List (Json × List (List (String × Json)))) (callIdx : Nat)
      (acc : List String) (k : Nat), k < buckets.length → stub (callIdx + k) = none →
      (availLoop stub buckets callIdx acc).1 = .error () := by
  intro buckets
  induction buckets with
  | nil => intro _ _ k hk _; simp at hk
  | cons b rest ih =>
    intro callIdx acc k hk hfail
    obtain ⟨region, services⟩ := b
    cases hs : stub callIdx with
    | none => simp [availLoop, hs]
    | some data =>
      cases hp : processRegion region services data acc with
      | error e => simp [availLoop, hs, hp]
      | ok acc2 =>
        cases k with
        | zero => rw [Nat.add_zero] at hfail; rw [hfail] at hs; cases hs
        | succ k2 =>
          have : stub (callIdx + 1 + k2) = none := by
            rw [show callIdx + 1 + k2 = callIdx + (k2 + 1) by omega]; exact hfail
          simpa [availLoop, hs, hp] using
            ih (callIdx + 1) acc2 k2 (by simpa using Nat.lt_of_succ_lt_succ hk) this

/-- C7: whenever any watch-providers request of the availability check
fails (timeout, non-2xx status seen by `raise_for_status`, or a raised
exception — all modelled by a `none` stub entry), the check returns
exactly `(false, [])` and never propagates the exception; this includes a
failure on a later region after matches accumulated for earlier regions. -/
theorem availability_fail_returns_false_empty (stub : Nat → Option Json) (tmdb_id : Json)
    (media_type api_key : String) (svcs : List Json) (k : Nat)
    (hk : k < regionCount svcs) (hfail : stub k = none) :
    check_streaming_availability stub tmdb_id media_type api_key svcs = (false, []) := by
  unfold check_streaming_availability
  cases hg : groupServices svcs with
  | error e => rfl
  | ok buckets =>
    have hk2 : k < buckets.length := by
      unfold regionCount at hk
      rw [hg] at hk
      exact hk
    have := availLoop_fail stub buckets 0 [] k hk2 (by simpa using hfail)
    simp [this]

/-- Witness for C7: two configured regions, the first responding with a
match for a configured provider, the second request failing — the result
is still `(false, [])`. -/
theorem availability_fail_returns_false_empty_witness :
    check_streaming_availability
      (fun n => if n == 0 then
        some (.obj [("results", .obj [("US", .obj [("flatrate",
          .arr [.obj [("provider_id", .num 8), ("provider_name", .str "Netflix")]])])])])
        else none)
      (.num 603) "movie" "k"
      [.obj [("id", .num 8), ("region", .str "US")],
       .obj [("id", .num 10), ("region", .str "DE")]] = (false, []) :=
  availability_fail_returns_false_empty _ _ _ _ _ 1 (by decide) rfl

/-!
Claim C5 — one watch-providers request per distinct configured region.
-/

/-- The key-membership test used by Python `in` on a string-keyed dict
agrees with `lookup?`. -/
theorem anyKey_eq_lookup (kvs : List (String × Json)) (k : String) :
    (kvs.any fun kv => Json.pyEq (.str kv.1) (.str k)) = (Json.lookup? kvs k).isSome := by
  induction kvs with
  | nil => simp [Json.lookup?]
  | cons kv rest ih =>
    obtain ⟨k0, v⟩ := kv
    simp only [List.any_cons, Json.pyEq] at ih ⊢
    by_cases h : k0 = k
    · simp [Json.lookup?, h]
    · simp [Json.lookup?, h, ih]

/-- `any` over the first projections. -/
theorem any_map_fst {β : Type} (bs : List (Json × β)) (p : Json → Bool) :
    (bs.map Prod.fst).any p = bs.any (fun b => p b.1) := by
  induction bs with
  | nil => rfl
  | cons b rest ih => simp [ih]

/-- Keys after inserting into a bucket list: unchanged when the region was
already present, extended by the region otherwise. -/
theorem addBucket_keys (r : Json) (svc : List (String × Json)) :
    ∀ bs, (addBucket bs r svc).map Prod.fst =
      if bs.any (fun b => Json.pyEq b.1 r) then bs.map Prod.fst
      else bs.map Prod.fst ++ [r] := by
  intro bs
  induction bs with
  | nil => simp [addBucket]
  | cons b rest ih =>
    obtain ⟨r0, ss0⟩ := b
    by_cases h : Json.pyEq r0 r = true
    · simp [addBucket, h]
    · cases h2 : rest.any (fun b => Json.pyEq b.1 r) with
      | true => simp [addBucket, h, h2, ih]
      | false => simp [addBucket, h, h2, ih]

/-- Inserting a region into the buckets matches one deduplication step. -/
theorem keys_after_add (bs : List (Json × List (List (String × Json)))) (x : Json)
    (svc : List (String × Json)) (crs : List Json) :
    (addBucket bs x svc).map Prod.fst ++
      pyDedupFrom ((addBucket bs x svc).map Prod.fst) crs =
    bs.map Prod.fst ++ pyDedupFrom (bs.map Prod.fst) (x :: crs) := by
  rw [addBucket_keys]
  cases hc : bs.any (fun b => Json.pyEq b.1 x) with
  | true =>
    have hm : (bs.map Prod.fst).any (fun y => Json.pyEq y x) = true := by
      rw [any_map_fst]; exact hc
    simp [hc, pyDedupFrom, hm]
  | false =>
    have hm : (bs.map Prod.fst).any (fun y => Json.pyEq y x) = false := by
      rw [any_map_fst]; exact hc
    simp [hc, pyDedupFrom, hm, List.append_assoc]

/-- On hashable regions, the grouping loop succeeds and its bucket keys
are the deduplicated configured regions. -/
theorem groupServicesAux_keys :
    ∀ (svcs : List Json) (bs : List (Json × List (List (String × Json)))),
      regionsHashable svcs = true →
      ∃ bs2, groupServicesAux svcs bs = .ok bs2 ∧
        bs2.map Prod.fst = bs.map Prod.fst ++ pyDedupFrom (bs.map Prod.fst) (configRegions svcs) := by
  intro svcs
  induction svcs with
  | nil => intro bs _; exact ⟨bs, rfl, by simp [configRegions, pyDedupFrom]⟩
  | cons s rest ih =>
    intro bs hh
    have hh2 : regionsHashable rest = true := by
      simp only [regionsHashable, List.all_cons, Bool.and_eq_true] at hh
      exact hh.2
    cases s with
    | num n =>
      obtain ⟨bs2, hok, hkeys⟩ := ih (addBucket bs (.str "US") [("id", .num n), ("region", .str "US")]) hh2
      refine ⟨bs2, by simpa [groupServicesAux] using hok, ?_⟩
      rw [hkeys, keys_after_add]
      simp [configRegions, serviceRegion]
    | bool v =>
      obtain ⟨bs2, hok, hkeys⟩ := ih (addBucket bs (.str "US") [("id", .bool v), ("region", .str "US")]) hh2
      refine ⟨bs2, by simpa [groupServicesAux] using hok, ?_⟩
      rw [hkeys, keys_after_add]
      simp [configRegions, serviceRegion]
    | null =>
      obtain ⟨bs2, hok, hkeys⟩ := ih bs hh2
      exact ⟨bs2, by simpa [groupServicesAux] using hok, by
        rw [hkeys]; simp [configRegions, serviceRegion]⟩
    | str v =>
      obtain ⟨bs2, hok, hkeys⟩ := ih bs hh2
      exact ⟨bs2, by simpa [groupServicesAux] using hok, by
        rw [hkeys]; simp [configRegions, serviceRegion]⟩
    | arr xs =>
      obtain ⟨bs2, hok, hkeys⟩ := ih bs hh2
      exact ⟨bs2, by simpa [groupServicesAux] using hok, by
        rw [hkeys]; simp [configRegions, serviceRegion]⟩
    | obj kvs =>
      have hr : ∀ w, (Json.lookup? kvs "region").getD (.str "US") = w →
          (match w with | .arr _ => false | .obj _ => false | _ => true) = true := by
        intro w hw
        simp only [regionsHashable, List.all_cons, Bool.and_eq_true] at hh
        have := hh.1
        rw [hw] at this
        exact this
      cases hw : (Json.lookup? kvs "region").getD (.str "US") with
      | arr xs => exact absurd (hr _ hw) (by simp)
      | obj o => exact absurd (hr _ hw) (by simp)
      | null =>
        obtain ⟨bs2, hok, hkeys⟩ := ih (addBucket bs .null kvs) hh2
        refine ⟨bs2, by simpa [groupServicesAux, hw] using hok, ?_⟩
        rw [hkeys, keys_after_add]
        simp [configRegions, serviceRegion, hw]
      | bool v =>
        obtain ⟨bs2, hok, hkeys⟩ := ih (addBucket bs (.bool v) kvs) hh2
        refine ⟨bs2, by simpa [groupServicesAux, hw] using hok, ?_⟩
        rw [hkeys, keys_after_add]
        simp [configRegions, serviceRegion, hw]
      | num n =>
        obtain ⟨bs2, hok, hkeys⟩ := ih (addBucket bs (.num n) kvs) hh2
        refine ⟨bs2, by simpa [groupServicesAux, hw] using hok, ?_⟩
        rw [hkeys, keys_after_add]
        simp [configRegions, serviceRegion, hw]
      | str v =>
        obtain ⟨bs2, hok, hkeys⟩ := ih (addBucket bs (.str v) kvs) hh2
        refine ⟨bs2, by simpa [groupServicesAux, hw] using hok, ?_⟩
        rw [hkeys, keys_after_add]
        simp [configRegions, serviceRegion, hw]

/-- A well-shaped response is consumed by the region-loop body without
raising. -/
theorem processRegion_ok (d : Json) (hd : goodResp d = true) (region : Json)
    (services : List (List (String × Json))) (acc : List String) :
    ∃ acc2, processRegion region services d acc = .ok acc2 := by
  cases d with
  | obj kvs =>
    cases h1 : Json.lookup? kvs "results" with
    | none =>
      refine ⟨acc, ?_⟩
      simp [processRegion, pyGetD, h1, pyIn, pyInJson, anyKey_eq_lookup]
    | some r =>
      have hd2 := hd
      simp only [goodResp, h1] at hd2
      cases r with
      | obj rsl =>
        cases hreg : rsl.any (fun kv => Json.pyEq (.str kv.1) region) with
        | false =>
          refine ⟨acc, ?_⟩
          simp [processRegion, pyGetD, h1, pyIn, pyInJson, anyKey_eq_lookup, pyIndexStr, hreg]
        | true =>
          obtain ⟨v, hv⟩ := lookupEq_of_any rsl region hreg
          obtain ⟨kx, hmem⟩ := lookupEq_mem rsl region v hv
          have hgood : goodRegionData v = true := by
            rw [List.all_eq_true] at hd2
            exact hd2 (kx, v) hmem
          cases v with
          | obj kvs2 =>
            cases h2 : Json.lookup? kvs2 "flatrate" with
            | none =>
              refine ⟨acc, ?_⟩
              simp [processRegion, pyGetD, h1, pyIn, pyInJson, anyKey_eq_lookup,
                pyIndexStr, hreg, pyIndexJson, hv, h2]
            | some f =>
              have hgood2 := hgood
              simp only [goodRegionData, h2] at hgood2
              cases f with
              | arr l =>
                refine ⟨l.foldl (providerStep region services) acc, ?_⟩
                simp [processRegion, pyGetD, h1, pyIn, pyInJson, anyKey_eq_lookup,
                  pyIndexStr, hreg, pyIndexJson, hv, h2, pyIter]
              | null => simp at hgood2
              | bool b => simp at hgood2
              | num n => simp at hgood2
              | str v => simp at hgood2
              | obj o => simp at hgood2
          | null => simp [goodRegionData] at hgood
          | bool b => simp [goodRegionData] at hgood
          | num n => simp [goodRegionData] at hgood
          | str sv => simp [goodRegionData] at hgood
          | arr xs => simp [goodRegionData] at hgood
      | null => simp at hd2
      | bool b => simp at hd2
      | num n => simp at hd2
      | str sv => simp at hd2
      | arr xs => simp at hd2
  | null => simp [goodResp] at hd
  | bool b => simp [goodResp] at hd
  | num n => simp [goodResp] at hd
  | str sv => simp [goodResp] at hd
  | arr xs => simp [goodResp] at hd

/-- With one well-shaped response per region, the loop issues exactly one
request per bucket. -/
theorem availLoop_calls (stub : Nat → Option Json) :
    ∀ (buckets : List (Json × List (List (String × Json)))) (callIdx : Nat) (acc : List String),
      (∀ i, i < buckets.length → ∃ d, stub (callIdx + i) = some d ∧ goodResp d = true) →
      (availLoop stub buckets callIdx acc).2 = buckets.length := by
  intro buckets
  induction buckets with
  | nil => intro callIdx acc _; rfl
  | cons b rest ih =>
    intro callIdx acc h
    obtain ⟨region, services⟩ := b
    obtain ⟨d, hs, hg⟩ := h 0 (by simp)
    rw [Nat.add_zero] at hs
    obtain ⟨acc2, hp⟩ := processRegion_ok d hg region services acc
    have hrest : ∀ i, i < rest.length →
        ∃ d2, stub (callIdx + 1 + i) = some d2 ∧ goodResp d2 = true := by
      intro i hi
      have := h (i + 1) (by simpa using Nat.succ_lt_succ hi)
      rwa [show callIdx + (i + 1) = callIdx + 1 + i by omega] at this
    simp [availLoop, hs, hp, ih (callIdx + 1) acc2 hrest]

/-- C5: with hashable configured regions and a well-shaped response per
request, the availability check issues exactly one watch-providers lookup
per distinct normalized region appearing in the configuration — not one
per service. -/
theorem availability_one_call_per_region (stub : Nat → Option Json) (svcs : List Json)
    (hreg : regionsHashable svcs = true)
    (hgood : ∀ i, i < (pyDedup (configRegions svcs)).length →
      ∃ d, stub i = some d ∧ goodResp d = true) :
    availabilityCalls stub svcs = (pyDedup (configRegions svcs)).length := by
  obtain ⟨bs2, hok, hkeys⟩ := groupServicesAux_keys svcs [] hreg
  have hlen : bs2.length = (pyDedup (configRegions svcs)).length := by
    have := congrArg List.length hkeys
    simpa [pyDedup] using this
  unfold availabilityCalls groupServices
  rw [hok]
  show (availLoop stub bs2 0 []).2 = (pyDedup (configRegions svcs)).length
  rw [availLoop_calls stub bs2 0 [] (fun i hi => by
    obtain ⟨d, hd1, hd2⟩ := hgood i (hlen ▸ hi)
    exact ⟨d, by simpa using hd1, hd2⟩)]
  exact hlen

/-- Witness for C5: the configuration
`[{id:8,region:"US"}, {id:9,region:"US"}, {id:10,region:"DE"}]` issues
exactly two provider lookups. -/
theorem availability_one_call_per_region_witness :
    availabilityCalls (fun _ => some (.obj []))
      [.obj [("id", .num 8), ("region", .str "US")],
       .obj [("id", .num 9), ("region", .str "US")],
       .obj [("id", .num 10), ("region", .str "DE")]] = 2 :=
  (availability_one_call_per_region (fun _ => some (.obj []))
    [.obj [("id", .num 8), ("region", .str "US")],
     .obj [("id", .num 9), ("region", .str "US")],
     .obj [("id", .num 10), ("region", .str "DE")]]
    (by decide) (fun i _ => ⟨.obj [], rfl, rfl⟩)).trans (by decide)

/-!
Claim C9 — every persisted result status is one of added / skipped /
removed / failed.
-/

/-- The four statuses a finished iteration can leave. -/
def statusOk (s : String) : Bool :=
  s == "added" || s == "skipped" || s == "removed" || s == "failed"

/-- Every sync-loop iteration overwrites the initial `processing` status
with one of the four final statuses before its result is appended. -/
theorem processItem_status (svcs : List Json) (api_key : String) (item : PyItem)
    (o : ItemOracle) : statusOk (processItem svcs api_key item o).result.status = true := by
  unfold processItem
  cases hres : resolveTmdb item o with
  | none => rfl
  | some v =>
    obtain ⟨tid, mt, t, y⟩ := v
    cases hbf : backfillImdb item o with
    | mk imdb rest =>
      obtain ⟨resImdb, extC⟩ := rest
      cases himdb : Json.jsonTruthy imdb <;>
        cases hava : (check_streaming_availability o.provStub tid
          (Json.pyToString mt) api_key svcs).1 <;>
        cases hrem : remove_from_plex_watchlist o.plexSearch o.plexPut <;>
        cases hadd : add_to_plex_watchlist o.plexSearch o.plexPut <;>
        simp [himdb, hava, hrem, hadd, statusOk]

/-- Status wellformedness over the whole per-item loop. -/
theorem processAll_status (svcs : List Json) (api_key : String) :
    ∀ (items : List PyItem) (os : Nat → ItemOracle),
      ((processAll svcs api_key items os).map ItemOut.result).all
        (fun r => statusOk r.status) = true := by
  intro items
  induction items with
  | nil => intro os; rfl
  | cons it rest ih =>
    intro os
    simp [processAll, processItem_status, ih]

/-- C9: every SyncResult in the results list persisted by a sync run has
status in added / skipped / removed / failed; the initial `processing`
status never survives to a persisted record (a run that persisted nothing
satisfies this vacuously through `getD []`). -/
theorem sync_persisted_statuses (config : Config) (fetched : List PyItem)
    (oracles : Nat → ItemOracle) :
    (((sync_watchlist config fetched oracles).savedResults.getD []).all
      (fun r => statusOk r.status)) = true := by
  unfold sync_watchlist
  repeat' split
  all_goals simp [processAll_status]

/-!
Claim C1 — add/remove decision and resulting statuses.
-/

/-- The Plex add succeeds exactly when the search verified a match and the
addToWatchlist PUT returned HTTP 200 or 204. -/
theorem add_iff (s : Option (String × String)) (p : Option Nat) :
    add_to_plex_watchlist s p = true ↔
      s.isSome = true ∧ (p = some 200 ∨ p = some 204) := by
  cases s with
  | none => simp [add_to_plex_watchlist]
  | some v =>
    cases p with
    | none => simp [add_to_plex_watchlist]
    | some code =>
      simp [add_to_plex_watchlist]

/-- C1: for an item whose TMDB identity resolves and whose IMDB id is
available (directly or through the backfill), an available item gets a
remove attempt whose success yields status `removed` and whose failure —
in particular a Plex search with no verified match — yields `skipped`; a
non-available item gets an add attempt, `added` exactly on Plex HTTP
200/204 after a verified search match, `failed` otherwise. -/
theorem orchestrator_add_remove_statuses (svcs : List Json) (api_key : String)
    (item : PyItem) (o : ItemOracle) (tid mt t y : Json)
    (hres : resolveTmdb item o = some (tid, mt, t, y))
    (himdb : Json.jsonTruthy (backfillImdb item o).1 = true) :
    ((check_streaming_availability o.provStub tid (Json.pyToString mt) api_key svcs).1 = true →
      (processItem svcs api_key item o).removeCalled = true ∧
      (processItem svcs api_key item o).addCalled = false ∧
      (processItem svcs api_key item o).result.status =
        (if remove_from_plex_watchlist o.plexSearch o.plexPut then "removed" else "skipped") ∧
      (o.plexSearch = none → (processItem svcs api_key item o).result.status = "skipped")) ∧
    ((check_streaming_availability o.provStub tid (Json.pyToString mt) api_key svcs).1 = false →
      (processItem svcs api_key item o).addCalled = true ∧
      (processItem svcs api_key item o).removeCalled = false ∧
      (processItem svcs api_key item o).result.status =
        (if add_to_plex_watchlist o.plexSearch o.plexPut then "added" else "failed") ∧
      (add_to_plex_watchlist o.plexSearch o.plexPut = true ↔
        o.plexSearch.isSome = true ∧ (o.plexPut = some 200 ∨ o.plexPut = some 204))) := by
  rcases hbf : backfillImdb item o with ⟨imdb, resImdb, extC⟩
  rw [hbf] at himdb
  simp only at himdb
  constructor
  · intro hava
    refine ⟨?_, ?_, ?_, fun hnone => ?_⟩ <;>
      simp [processItem, hres, hbf, himdb, hava, remove_from_plex_watchlist, *]
  · intro hava
    refine ⟨?_, ?_, ?_, ?_⟩
    · simp [processItem, hres, hbf, himdb, hava]
    · simp [processItem, hres, hbf, himdb, hava]
    · simp [processItem, hres, hbf, himdb, hava]
    · exact add_iff _ _

/-- Concrete services for the C1 witness. -/
def w1Svcs : List Json := [.obj [("id", .num 8), ("region", .str "US")]]

/-- Concrete watch-providers response for the C1 witness. -/
def w1Resp : Json := .obj [("results", .obj [("US", .obj [("flatrate",
  .arr [.obj [("provider_id", .num 8), ("provider_name", .str "Netflix")]])])])]

/-- Concrete item for the C1 witness. -/
def w1Item : PyItem :=
  { title := .str "T", imdb_id := .str "tt1", tmdb_id := some (.num 5),
    media_type := some (.str "movie"), year := some (.str "2001") }

/-- Concrete oracles for the C1 witness. -/
def w1Oracle : ItemOracle :=
  { findResp := none, extResp := none, provStub := fun _ => some w1Resp,
    plexSearch := some ("rk", "T"), plexPut := some 200 }

/-- Witness for C1: a fully resolved item, available on a configured
service, removed successfully (HTTP 200); the available-branch conclusion
holds at this concrete input. -/
theorem orchestrator_add_remove_statuses_witness :
    (check_streaming_availability w1Oracle.provStub (.num 5)
        (Json.pyToString (.str "movie")) "k" w1Svcs).1 = true ∧
    ((check_streaming_availability w1Oracle.provStub (.num 5)
        (Json.pyToString (.str "movie")) "k" w1Svcs).1 = true →
      (processItem w1Svcs "k" w1Item w1Oracle).removeCalled = true ∧
      (processItem w1Svcs "k" w1Item w1Oracle).addCalled = false ∧
      (processItem w1Svcs "k" w1Item w1Oracle).result.status =
        (if remove_from_plex_watchlist w1Oracle.plexSearch w1Oracle.plexPut then "removed"
          else "skipped") ∧
      (w1Oracle.plexSearch = none →
        (processItem w1Svcs "k" w1Item w1Oracle).result.status = "skipped")) :=
  ⟨by decide,
   (orchestrator_add_remove_statuses w1Svcs "k" w1Item w1Oracle (.num 5) (.str "movie")
     (.str "T") (.str "2001") rfl (by decide)).1⟩

/-!
Claim C2 — where the imdb backfill actually happens.
-/

theorem backfill_extFlag (item : PyItem) (o : ItemOracle) :
    (backfillImdb item o).2.2 = !Json.jsonTruthy item.imdb_id := by
  unfold backfillImdb
  cases ht : Json.jsonTruthy item.imdb_id
  · simp only [ht, Bool.false_eq_true, if_false, Bool.not_false]
    cases o.extResp with
    | none => rfl
    | some data => cases h2 : pyGetD data "imdb_id" .null <;> simp [h2]
  · simp [ht]

theorem backfill_runs_in_both_branches (svcs : List Json) (api_key : String)
    (item : PyItem) (o : ItemOracle) (tid mt t y : Json)
    (hres : resolveTmdb item o = some (tid, mt, t, y)) :
    (processItem svcs api_key item o).extCalled = !Json.jsonTruthy item.imdb_id ∧
    (Json.jsonTruthy (backfillImdb item o).1 = false →
      (processItem svcs api_key item o).result.status = "failed" ∧
      (processItem svcs api_key item o).result.error = some "No IMDB ID available" ∧
      (processItem svcs api_key item o).removeCalled = false ∧
      (processItem svcs api_key item o).addCalled = false) ∧
    (Json.jsonTruthy item.imdb_id = true →
      (check_streaming_availability o.provStub tid (Json.pyToString mt) api_key svcs).1 = true →
      (processItem svcs api_key item o).extCalled = false ∧
      (processItem svcs api_key item o).removeCalled = true) := by
  refine ⟨?_, ?_, ?_⟩
  · rcases hbf : backfillImdb item o with ⟨imdb, resImdb, extC⟩
    have hext : extC = !Json.jsonTruthy item.imdb_id := by
      have h0 := backfill_extFlag item o
      rw [hbf] at h0
      exact h0
    cases himdb : Json.jsonTruthy imdb <;>
      cases hava : (check_streaming_availability o.provStub tid
        (Json.pyToString mt) api_key svcs).1 <;>
      simp [processItem, hres, hbf, himdb, hava, hext]
  · intro hfal
    rcases hbf : backfillImdb item o with ⟨imdb, resImdb, extC⟩
    rw [hbf] at hfal
    simp only at hfal
    refine ⟨?_, ?_, ?_, ?_⟩ <;> simp [processItem, hres, hbf, hfal]
  · intro ht hava
    rcases hbf : backfillImdb item o with ⟨imdb, resImdb, extC⟩
    have himdb : Json.jsonTruthy imdb = true := by
      have h1 : (backfillImdb item o).1 = item.imdb_id := by
        unfold backfillImdb
        simp [ht]
      rw [hbf] at h1
      simp only at h1
      rw [h1]
      exact ht
    have hext : extC = !Json.jsonTruthy item.imdb_id := by
      have h0 := backfill_extFlag item o
      rw [hbf] at h0
      exact h0
    constructor
    · simp [processItem, hres, hbf, himdb, hava, hext, ht]
    · simp [processItem, hres, hbf, himdb, hava]

/-- Concrete item for the C2 counterexample: an available item with no
imdb id whose reverse lookup fails. -/
def c2Item : PyItem :=
  { title := .str "X", imdb_id := .null, tmdb_id := some (.num 5),
    media_type := some (.str "movie"), year := some (.str "2001") }

/-- Concrete oracles for the C2 counterexample: the availability stub
reports a configured match, the external-ids request fails. -/
def c2Oracle : ItemOracle :=
  { findResp := none, extResp := none,
    provStub := fun _ => some (.obj [("results", .obj [("US", .obj [("flatrate",
      .arr [.obj [("provider_id", .num 8), ("provider_name", .str "Netflix")]])])])]),
    plexSearch := some ("rk", "X"), plexPut := some 200 }

/-- Concrete services for the C2 counterexample. -/
def c2Svcs : List Json := [.obj [("id", .num 8), ("region", .str "US")]]

/-- Counterexample to C2 as stated: this item is reported available, yet
the external-ids backfill request is made (so the reverse lookup is not
confined to the not-available branch), and since it fails the item gets
status `failed` with no remove attempt (so an available item does need
the backfill). -/
theorem backfill_only_not_available_counterexample :
    (check_streaming_availability c2Oracle.provStub (.num 5)
      (Json.pyToString (.str "movie")) "k" c2Svcs).1 = true ∧
    (processItem c2Svcs "k" c2Item c2Oracle).extCalled = true ∧
    (processItem c2Svcs "k" c2Item c2Oracle).result.status = "failed" ∧
    (processItem c2Svcs "k" c2Item c2Oracle).removeCalled = false := by
  refine ⟨by decide, by decide, by decide, by decide⟩

/-- Witness for the amended C2 at the counterexample input. -/
theorem backfill_runs_in_both_branches_witness :
    (processItem c2Svcs "k" c2Item c2Oracle).extCalled = !Json.jsonTruthy c2Item.imdb_id ∧
    (Json.jsonTruthy (backfillImdb c2Item c2Oracle).1 = false →
      (processItem c2Svcs "k" c2Item c2Oracle).result.status = "failed" ∧
      (processItem c2Svcs "k" c2Item c2Oracle).result.error = some "No IMDB ID available" ∧
      (processItem c2Svcs "k" c2Item c2Oracle).removeCalled = false ∧
      (processItem c2Svcs "k" c2Item c2Oracle).addCalled = false) ∧
    (Json.jsonTruthy c2Item.imdb_id = true →
      (check_streaming_availability c2Oracle.provStub (.num 5)
        (Json.pyToString (.str "movie")) "k" c2Svcs).1 = true →
      (processItem c2Svcs "k" c2Item c2Oracle).extCalled = false ∧
      (processItem c2Svcs "k" c2Item c2Oracle).removeCalled = true) :=
  backfill_runs_in_both_branches c2Svcs "k" c2Item c2Oracle (.num 5) (.str "movie")
    (.str "X") (.str "2001") rfl

/-!
Claim C8 — missing credentials or source identifier abort the run with no
side effects.
-/

/-- C8: when the Plex token or the TMDB API key is empty, or the selected
identifier of the selected source is empty (IMDB list URL, TMDB list id, or either of
the Trakt URL / Trakt API key), the sync run aborts before any outbound
call: the persisted results and stats stores are not written, the call
trace is empty, and exactly one (error) log entry is recorded. -/
theorem sync_validation_aborts (config : Config) (fetched : List PyItem)
    (oracles : Nat → ItemOracle)
    (h : config.plexToken = "" ∨ config.tmdbApiKey = "" ∨
      (config.listSource = "imdb" ∧ config.imdbListUrl = "") ∨
      (config.listSource = "tmdb" ∧ config.tmdbListId = "") ∨
      (config.listSource = "trakt" ∧ (config.traktListUrl = "" ∨ config.traktApiKey = ""))) :
    (sync_watchlist config fetched oracles).savedResults = none ∧
    (sync_watchlist config fetched oracles).savedRemoved = none ∧
    (sync_watchlist config fetched oracles).trace = [] ∧
    (sync_watchlist config fetched oracles).logs.length = 1 := by
  by_cases h1 : (config.plexToken == "" || config.tmdbApiKey == "") = true
  · simp [sync_watchlist, h1]
  · have hp : ¬ config.plexToken = "" ∧ ¬ config.tmdbApiKey = "" := by
      simpa using h1
    rcases h with h | h | ⟨ha, hb⟩ | ⟨ha, hb⟩ | ⟨ha, hb⟩
    · exact absurd h hp.1
    · exact absurd h hp.2
    · simp [sync_watchlist, h1, ha, hb]
    · simp [sync_watchlist, h1, ha, hb]
    · rcases hb with hb | hb <;> simp [sync_watchlist, h1, ha, hb]

/-- Witness for C8: an IMDB-source configuration with credentials present
and an empty IMDB list URL leaves everything untouched. -/
theorem sync_validation_aborts_witness :
    (sync_watchlist
      { listSource := "imdb", imdbListUrl := "", tmdbListId := "", traktListUrl := "",
        traktApiKey := "", plexToken := "tok", tmdbApiKey := "key", streamingServices := [] }
      [] (fun _ =>
        { findResp := none, extResp := none, provStub := fun _ => none,
          plexSearch := none, plexPut := none })).savedResults = none ∧
    (sync_watchlist
      { listSource := "imdb", imdbListUrl := "", tmdbListId := "", traktListUrl := "",
        traktApiKey := "", plexToken := "tok", tmdbApiKey := "key", streamingServices := [] }
      [] (fun _ =>
        { findResp := none, extResp := none, provStub := fun _ => none,
          plexSearch := none, plexPut := none })).savedRemoved = none ∧
    (sync_watchlist
      { listSource := "imdb", imdbListUrl := "", tmdbListId := "", traktListUrl := "",
        traktApiKey := "", plexToken := "tok", tmdbApiKey := "key", streamingServices := [] }
      [] (fun _ =>
        { findResp := none, extResp := none, provStub := fun _ => none,
          plexSearch := none, plexPut := none })).trace = [] ∧
    (sync_watchlist
      { listSource := "imdb", imdbListUrl := "", tmdbListId := "", traktListUrl := "",
        traktApiKey := "", plexToken := "tok", tmdbApiKey := "key", streamingServices := [] }
      [] (fun _ =>
        { findResp := none, extResp := none, provStub := fun _ => none,
          plexSearch := none, plexPut := none })).logs.length = 1 :=
  sync_validation_aborts _ _ _ (Or.inr (Or.inr (Or.inl ⟨rfl, rfl⟩)))

/-!
Claim C4 — imdb ids produced by the list fetchers.
-/

/-- Invariant of the scraping accumulator: the item ids are exactly the
seen set, in order, without duplicates, and each has the `tt` prefix. -/
def scrapeInv (st : List ScrapeItem × List String) : Prop :=
  st.1.map (fun it => it.imdb_id) = st.2 ∧ st.2.Nodup ∧
    ∀ s ∈ st.2, pyStartsWith s "tt" = true

/-- An id that matches the full pattern has the `tt` prefix. -/
theorem isTtId_starts (s : String) (h : isTtId s = true) : pyStartsWith s "tt" = true := by
  unfold isTtId at h
  simp only [Bool.and_eq_true] at h
  unfold pyStartsWith
  have htt : "tt".toList = ['t', 't'] := rfl
  rw [htt]
  exact h.1.1

/-- Appending an unseen `tt`-prefixed id preserves the invariant. -/
theorem scrapeInv_push (items : List ScrapeItem) (seen : List String) (t : Json)
    (s link : String) (h : scrapeInv (items, seen)) (hs : pyStartsWith s "tt" = true)
    (hns : seen.contains s = false) :
    scrapeInv (items ++ [⟨t, s, link⟩], seen ++ [s]) := by
  obtain ⟨h1, h2, h3⟩ := h
  have hmem : s ∉ seen := by
    intro hm
    rw [List.contains_eq_any_beq] at hns
    simp [List.any_eq_true] at hns
    exact hns s hm rfl
  refine ⟨by simp [h1], ?_, ?_⟩
  · rw [List.nodup_append]
    refine ⟨h2, List.nodup_singleton s, ?_⟩
    intro a ha hb
    rw [List.mem_singleton] at hb
    subst hb
    exact hmem ha
  · intro x hx
    rcases List.mem_append.mp hx with hx | hx
    · exact h3 x hx
    · simp at hx
      rw [hx]
      exact hs

/-- `objHeadStep` preserves the invariant when it does not raise. -/
theorem objHeadStep_inv (kvs : List (String × Json)) (items : List ScrapeItem)
    (seen : List String) (its : List ScrapeItem) (sn : List String)
    (h : scrapeInv (items, seen)) (hstep : objHeadStep kvs items seen = some (its, sn)) :
    scrapeInv (its, sn) := by
  unfold objHeadStep at hstep
  by_cases hk : (Json.hasKey kvs "titleText" && Json.hasKey kvs "id") = true
  · rw [if_pos hk] at hstep
    simp only at hstep
    set titleVal : Json :=
      match (Json.lookup? kvs "titleText").getD (.obj []) with
      | .obj d => (Json.lookup? d "text").getD (.str "")
      | t => .str (Json.pyToString t) with htv
    by_cases htr : Json.jsonTruthy titleVal = true
    · rw [if_pos htr] at hstep
      cases hidj : (Json.lookup? kvs "id").getD (.str "") with
      | str s =>
        rw [hidj] at hstep
        have hstep2 : (if (pyStartsWith s "tt" && !seen.contains s) = true then
            some (items ++ [⟨titleVal, s, imdbLink s⟩], seen ++ [s])
          else some (items, seen)) = some (its, sn) := hstep
        by_cases hc : (pyStartsWith s "tt" && !seen.contains s) = true
        · rw [if_pos hc] at hstep2
          simp only [Option.some.injEq, Prod.mk.injEq] at hstep2
          rw [← hstep2.1, ← hstep2.2]
          simp only [Bool.and_eq_true, Bool.not_eq_true'] at hc
          exact scrapeInv_push items seen titleVal s (imdbLink s) h hc.1 hc.2
        · rw [if_neg hc] at hstep2
          simp only [Option.some.injEq, Prod.mk.injEq] at hstep2
          rw [← hstep2.1, ← hstep2.2]
          exact h
      | null => rw [hidj] at hstep; exact Option.noConfusion hstep
      | bool b => rw [hidj] at hstep; exact Option.noConfusion hstep
      | num n => rw [hidj] at hstep; exact Option.noConfusion hstep
      | arr xs => rw [hidj] at hstep; exact Option.noConfusion hstep
      | obj o => rw [hidj] at hstep; exact Option.noConfusion hstep
    · rw [if_neg htr] at hstep
      simp only [Option.some.injEq, Prod.mk.injEq] at hstep
      rw [← hstep.1, ← hstep.2]
      exact h
  · rw [if_neg hk] at hstep
    simp only [Option.some.injEq, Prod.mk.injEq] at hstep
    rw [← hstep.1, ← hstep.2]
    exact h

mutual
/-- The recursive extraction preserves the invariant. -/
theorem extractFromJson_inv : ∀ (j : Json) (items : List ScrapeItem) (seen : List String),
    scrapeInv (items, seen) →
    scrapeInv ((extractFromJson j items seen).1, (extractFromJson j items seen).2.1)
  | .obj kvs, items, seen, h => by
    simp only [extractFromJson]
    cases hstep : objHeadStep kvs items seen with
    | none => exact h
    | some st2 =>
      obtain ⟨its, sn⟩ := st2
      exact extractKVs_inv kvs its sn (objHeadStep_inv kvs items seen its sn h hstep)
  | .arr xs, items, seen, h => by
    simp only [extractFromJson]
    exact extractJsonList_inv xs items seen h
  | .null, items, seen, h => h
  | .bool b, items, seen, h => h
  | .num n, items, seen, h => h
  | .str s, items, seen, h => h

/-- Value recursion of the extraction preserves the invariant. -/
theorem extractKVs_inv : ∀ (kvs : List (String × Json)) (items : List ScrapeItem)
    (seen : List String), scrapeInv (items, seen) →
    scrapeInv ((extractKVs kvs items seen).1, (extractKVs kvs items seen).2.1)
  | [], items, seen, h => h
  | (k, v) :: rest, items, seen, h => by
    simp only [extractKVs]
    have hv := extractFromJson_inv v items seen h
    cases hres : extractFromJson v items seen with
    | mk its rest2 =>
      obtain ⟨sn, flag⟩ := rest2
      rw [hres] at hv
      cases flag
      · exact extractKVs_inv rest its sn hv
      · exact hv

/-- List recursion of the extraction preserves the invariant. -/
theorem extractJsonList_inv : ∀ (xs : List Json) (items : List ScrapeItem)
    (seen : List String), scrapeInv (items, seen) →
    scrapeInv ((extractJsonList xs items seen).1, (extractJsonList xs items seen).2.1)
  | [], items, seen, h => h
  | x :: rest, items, seen, h => by
    simp only [extractJsonList]
    have hv := extractFromJson_inv x items seen h
    cases hres : extractFromJson x items seen with
    | mk its rest2 =>
      obtain ⟨sn, flag⟩ := rest2
      rw [hres] at hv
      cases flag
      · exact extractJsonList_inv rest its sn hv
      · exact hv
end

/-- The regex-extraction step preserves the invariant when the captured id
matches the capture pattern `tt\d+`. -/
theorem regexStep_inv (st : List ScrapeItem × List String) (title id : String)
    (hid : isTtId id = true) (h : scrapeInv st) : scrapeInv (regexStep st title id) := by
  obtain ⟨items, seen⟩ := st
  simp only [regexStep]
  by_cases hc : seen.contains id = true
  · rw [if_pos hc]
    exact h
  · rw [if_neg hc]
    exact scrapeInv_push items seen (.str title) id (imdbLink id) h (isTtId_starts id hid)
      (by simpa using hc)

/-- Ids captured by the DOM fallback carry the `tt` prefix. -/
theorem titleIdSearch_starts : ∀ (cs : List Char) (id : String),
    titleIdSearch cs = some id → pyStartsWith id "tt" = true := by
  intro cs
  induction cs with
  | nil => intro id h; cases h
  | cons c rest ih =>
    intro id h
    unfold titleIdSearch at h
    by_cases hp : listPrefix "/title/tt".toList (c :: rest) = true
    · rw [if_pos hp] at h
      by_cases hd : (((c :: rest).drop 9).takeWhile Char.isDigit).isEmpty = true
      · rw [if_pos hd] at h
        exact ih id h
      · rw [if_neg hd] at h
        injection h with h2
        rw [← h2]
        unfold pyStartsWith
        rfl
    · rw [if_neg hp] at h
      exact ih id h

/-- The DOM fallback step preserves the invariant. -/
theorem domStep_inv (st : List ScrapeItem × List String) (a : Anchor)
    (h : scrapeInv st) : scrapeInv (domStep st a) := by
  obtain ⟨items, seen⟩ := st
  cases hs : searchTitleId a.href with
  | none =>
    have he : domStep (items, seen) a = (items, seen) := by
      unfold domStep
      rw [hs]
    rw [he]
    exact h
  | some id =>
    have he : domStep (items, seen) a =
        (if seen.contains id = true then (items, seen)
          else (items ++ [⟨.str (domTitle a id), id, imdbLink id⟩], seen ++ [id])) := by
      unfold domStep
      rw [hs]
    rw [he]
    by_cases hc : seen.contains id = true
    · rw [if_pos hc]
      exact h
    · rw [if_neg hc]
      exact scrapeInv_push items seen _ id (imdbLink id) h
        (titleIdSearch_starts a.href.toList id hs) (by simpa using hc)

/-- The full scraping state satisfies the invariant. -/
theorem scrapeSt_inv (scripts : List (Option Json))
    (findFwd findRev : List (String × String)) (anchors : List Anchor)
    (hf : ∀ p ∈ findFwd, isTtId p.2 = true) (hr : ∀ p ∈ findRev, isTtId p.1 = true) :
    scrapeInv (scrapeSt scripts findFwd findRev anchors) := by
  unfold scrapeSt
  have h0 : scrapeInv (([], []) : List ScrapeItem × List String) := by
    refine ⟨rfl, List.nodup_nil, ?_⟩
    intro s hs
    cases hs
  have h1 := foldl_preserves scrapeInv
    (fun st sc =>
      match sc with
      | some (Json.obj kvs) =>
        ((extractFromJson (Json.obj kvs) st.1 st.2).1,
          (extractFromJson (Json.obj kvs) st.1 st.2).2.1)
      | _ => st) scripts ([], [])
    (fun sc _ st hst => by
      cases sc with
      | none => exact hst
      | some j =>
        cases j with
        | obj kvs =>
          have := extractFromJson_inv (Json.obj kvs) st.1 st.2 hst
          simpa using this
        | null => exact hst
        | bool b => exact hst
        | num n => exact hst
        | str s => exact hst
        | arr xs => exact hst) h0
  set st1 := scripts.foldl (fun st sc =>
    match sc with
    | some (Json.obj kvs) =>
      ((extractFromJson (Json.obj kvs) st.1 st.2).1,
        (extractFromJson (Json.obj kvs) st.1 st.2).2.1)
    | _ => st) ([], []) with hst1
  have h2 : scrapeInv (if st1.1.length < 50 then
      findFwd.foldl (fun st p => regexStep st p.1 p.2) st1 else st1) := by
    by_cases hlen : st1.1.length < 50
    · rw [if_pos hlen]
      exact foldl_preserves scrapeInv _ findFwd st1
        (fun p hp st hst => regexStep_inv st p.1 p.2 (hf p hp) hst) h1
    · rw [if_neg hlen]
      exact h1
  set st2 := if st1.1.length < 50 then
    findFwd.foldl (fun st p => regexStep st p.1 p.2) st1 else st1 with hst2
  have h3 : scrapeInv (if st2.1.length < 50 then
      findRev.foldl (fun st p => regexStep st p.2 p.1) st2 else st2) := by
    by_cases hlen : st2.1.length < 50
    · rw [if_pos hlen]
      exact foldl_preserves scrapeInv _ findRev st2
        (fun p hp st hst => regexStep_inv st p.2 p.1 (hr p hp) hst) h2
    · rw [if_neg hlen]
      exact h2
  set st3 := if st2.1.length < 50 then
    findRev.foldl (fun st p => regexStep st p.2 p.1) st2 else st2 with hst3
  by_cases hemp : st3.1.isEmpty = true
  · simp only [hemp, if_true]
    exact foldl_preserves scrapeInv domStep anchors st3
      (fun a _ st hst => domStep_inv st a hst) h3
  · simp only [hemp, Bool.false_eq_true, if_false]
    exact h3

/-- Every item of a TMDB list fetch has a null imdb id (loop part). -/
theorem tmdbListLoop_null : ∀ (entries : List Json) (items : List PyItem),
    (∀ it ∈ items, it.imdb_id = .null) →
    ∀ it ∈ (tmdbListLoop entries items).1, it.imdb_id = .null := by
  intro entries
  induction entries with
  | nil => intro items h; exact h
  | cons e rest ih =>
    intro items h
    cases e with
    | obj kvs =>
      simp only [tmdbListLoop]
      cases hsl : pySlice4 (pyOr (pyOr ((Json.lookup? kvs "release_date").getD .null)
          ((Json.lookup? kvs "first_air_date").getD .null)) (.str "")) with
      | error e2 => exact h
      | ok year =>
        apply ih
        intro it hit
        rcases List.mem_append.mp hit with hit | hit
        · exact h it hit
        · simp at hit
          rw [hit]
    | null => exact h
    | bool b => exact h
    | num n => exact h
    | str sv => exact h
    | arr xs => exact h

/-- Every item of a TMDB list fetch has a null imdb id. -/
theorem get_tmdb_list_null (stub : Option Json) :
    ∀ it ∈ get_tmdb_list stub, it.imdb_id = .null := by
  cases stub with
  | none => intro it hit; cases hit
  | some data =>
    intro it hit
    have hit2 : it ∈ (match pyGetD data "items" (.arr []) with
      | .error _ => ([] : List PyItem)
      | .ok itemsField =>
        match pyIter itemsField with
        | .error _ => []
        | .ok entries => (tmdbListLoop entries []).1) := hit
    cases h1 : pyGetD data "items" (.arr []) with
    | error e =>
      rw [h1] at hit2
      exact absurd hit2 (List.not_mem_nil it)
    | ok itemsField =>
      rw [h1] at hit2
      have hit3 : it ∈ (match pyIter itemsField with
        | .error _ => ([] : List PyItem)
        | .ok entries => (tmdbListLoop entries []).1) := hit2
      cases h2 : pyIter itemsField with
      | error e =>
        rw [h2] at hit3
        exact absurd hit3 (List.not_mem_nil it)
      | ok entries =>
        rw [h2] at hit3
        exact tmdbListLoop_null entries []
          (fun it2 hm => absurd hm (List.not_mem_nil it2)) it hit3

/-- Amended C4: under the guarantee of the regex capture groups, every
sequence returned by the IMDB scraper has pairwise-distinct imdb ids each
carrying the `tt` prefix (the full `^tt\d+$` shape is guaranteed by the
regex and DOM extractions but only the prefix by the embedded-JSON
extraction), and every item of a TMDB list fetch has a null imdb id.  The
Trakt fetcher offers no such guarantee (see the counterexample). -/
theorem fetcher_imdb_id_wellformedness (scripts : List (Option Json))
    (findFwd findRev : List (String × String)) (anchors : List Anchor)
    (stubT : Option Json)
    (hf : ∀ p ∈ findFwd, isTtId p.2 = true) (hr : ∀ p ∈ findRev, isTtId p.1 = true) :
    ((scrape_watchlist_page scripts findFwd findRev anchors).map
      (fun it => it.imdb_id)).Nodup ∧
    (∀ it ∈ scrape_watchlist_page scripts findFwd findRev anchors,
      pyStartsWith it.imdb_id "tt" = true) ∧
    (∀ it ∈ get_tmdb_list stubT, it.imdb_id = .null) := by
  obtain ⟨h1, h2, h3⟩ := scrapeSt_inv scripts findFwd findRev anchors hf hr
  refine ⟨?_, ?_, get_tmdb_list_null stubT⟩
  · unfold scrape_watchlist_page
    rw [h1]
    exact h2
  · intro it hit
    apply h3
    rw [← h1]
    exact List.mem_map_of_mem (fun it => it.imdb_id) hit

/-- Witness for the amended C4 at concrete inputs for all three parts. -/
theorem fetcher_imdb_id_wellformedness_witness :
    ((scrape_watchlist_page
        [some (.obj [("titleText", .obj [("text", .str "A")]), ("id", .str "tt7")])]
        [("B", "tt8")] [("tt8", "Bdup")] []).map (fun it => it.imdb_id)).Nodup ∧
    (∀ it ∈ scrape_watchlist_page
        [some (.obj [("titleText", .obj [("text", .str "A")]), ("id", .str "tt7")])]
        [("B", "tt8")] [("tt8", "Bdup")] [],
      pyStartsWith it.imdb_id "tt" = true) ∧
    (∀ it ∈ get_tmdb_list (some (.obj [("items", .arr [.obj [("media_type", .str "movie"),
        ("id", .num 3), ("title", .str "M"), ("release_date", .str "2001-02-03")]])])),
      it.imdb_id = .null) :=
  fetcher_imdb_id_wellformedness
    [some (.obj [("titleText", .obj [("text", .str "A")]), ("id", .str "tt7")])]
    [("B", "tt8")] [("tt8", "Bdup")] []
    (some (.obj [("items", .arr [.obj [("media_type", .str "movie"),
      ("id", .num 3), ("title", .str "M"), ("release_date", .str "2001-02-03")]])]))
    (by decide) (by decide)

/-- Trakt page stub for the C4 counterexample: one page with two entries
both carrying the Trakt-supplied imdb id "bogus". -/
def c4TraktStub : Nat → Option (Json × Int) := fun _ =>
  some (.arr [
    .obj [("type", .str "movie"), ("movie", .obj [("ids",
      .obj [("imdb", .str "bogus"), ("tmdb", .num 7)]),
      ("title", .str "A"), ("year", .num 2000)])],
    .obj [("type", .str "movie"), ("movie", .obj [("ids",
      .obj [("imdb", .str "bogus"), ("tmdb", .num 7)]),
      ("title", .str "A"), ("year", .num 2000)])]], 1)

/-- Counterexample to C4 as stated: a single Trakt fetch returns two items
sharing the non-null imdb id "bogus", which does not match `^tt\d+$`; and
the embedded-JSON extraction of the IMDB scraper accepts the id "ttabc",
which has the `tt` prefix but does not match `^tt\d+$` either. -/
theorem fetcher_imdb_id_wellformedness_counterexample :
    ((get_trakt_list "https://trakt.tv/users/u/watchlist" c4TraktStub 5).map
      (fun it => it.imdb_id)) = [.str "bogus", .str "bogus"] ∧
    isTtId "bogus" = false ∧
    ((scrape_watchlist_page [some (.obj [("titleText", .str "T"), ("id", .str "ttabc")])]
      [] [] []).map (fun it => it.imdb_id)) = ["ttabc"] ∧
    isTtId "ttabc" = false :=
  ⟨rfl, by decide, rfl, by decide⟩

/-!
Claim C3 — the fallbacks after the scraping methods fail.
-/

/-- Amended C3: when the embedded-JSON, regex and DOM extractions all
yield nothing for a personal-watchlist page, the fetcher looks for a list
id on the page (`data-list-id` attribute first, then an `ls`-id in a
script body) and retries through the direct-list endpoint; with no list id
it returns the empty sequence.  No CSV-export and no RSS request is ever
made (`parse_csv_export` exists in the source but has no caller). -/
theorem imdb_fallback_chain (userPg : ImdbPage) (listPg : Option ImdbPage)
    (hok : userPg.status = 200)
    (hempty : scrape_watchlist_page userPg.scripts userPg.findFwd userPg.findRev
      userPg.anchors = []) :
    (∀ lid, (userPg.dataListId = some lid ∨
        (userPg.dataListId = none ∧ userPg.scriptLsId = some lid)) →
      get_imdb_export_data (some userPg) listPg =
        ((get_imdb_list_data listPg lid).1,
          .watchlistPage :: (get_imdb_list_data listPg lid).2)) ∧
    (userPg.dataListId = none → userPg.scriptLsId = none →
      get_imdb_export_data (some userPg) listPg = ([], [.watchlistPage])) ∧
    ImdbCall.csvExport ∉ (get_imdb_export_data (some userPg) listPg).2 ∧
    ImdbCall.rssFeed ∉ (get_imdb_export_data (some userPg) listPg).2 := by
  have hred : get_imdb_export_data (some userPg) listPg =
      (match userPg.dataListId with
        | some lid =>
          ((get_imdb_list_data listPg lid).1,
            .watchlistPage :: (get_imdb_list_data listPg lid).2)
        | none =>
          match userPg.scriptLsId with
          | some lid =>
            ((get_imdb_list_data listPg lid).1,
              .watchlistPage :: (get_imdb_list_data listPg lid).2)
          | none => ([], [.watchlistPage])) := by
    unfold get_imdb_export_data
    change (if (userPg.status != 200) = true then ([], [ImdbCall.watchlistPage]) else _) = _
    simp only [hok, hempty]
    rfl
  have hnocsv : ∀ lid, ImdbCall.csvExport ∉ (get_imdb_list_data listPg lid).2 ∧
      ImdbCall.rssFeed ∉ (get_imdb_list_data listPg lid).2 := by
    intro lid
    unfold get_imdb_list_data
    cases listPg with
    | none => simp
    | some pg =>
      by_cases hst : (pg.status == 200) = true
      · simp [hst]
      · simp [hst]
  refine ⟨?_, ?_, ?_, ?_⟩
  · intro lid hlid
    rcases hlid with hlid | ⟨hnone, hlid⟩
    · rw [hred, hlid]
    · rw [hred, hnone, hlid]
  · intro h1 h2
    rw [hred, h1, h2]
  · rw [hred]
    cases hd : userPg.dataListId with
    | some lid => simpa using (hnocsv lid).1
    | none =>
      cases hs : userPg.scriptLsId with
      | some lid => simpa using (hnocsv lid).1
      | none => simp
  · rw [hred]
    cases hd : userPg.dataListId with
    | some lid => simpa using (hnocsv lid).2
    | none =>
      cases hs : userPg.scriptLsId with
      | some lid => simpa using (hnocsv lid).2
      | none => simp

/-- A watchlist page on which every extraction method yields nothing and
no list id can be found. -/
def c3UserPage : ImdbPage :=
  { status := 200, scripts := [], findFwd := [], findRev := [], anchors := [],
    dataListId := none, scriptLsId := none }

/-- Counterexample to C3 as stated: with every extraction method empty for
a personal watchlist page, the fetcher returns the empty sequence having
requested only the watchlist page — it never attempts a CSV export or an
RSS feed endpoint. -/
theorem imdb_fallback_chain_counterexample :
    get_imdb_export_data (some c3UserPage) none = ([], [ImdbCall.watchlistPage]) ∧
    ImdbCall.csvExport ∉ (get_imdb_export_data (some c3UserPage) none).2 ∧
    ImdbCall.rssFeed ∉ (get_imdb_export_data (some c3UserPage) none).2 :=
  ⟨rfl, by decide, by decide⟩

/-- A watchlist page that scrapes to nothing but exposes a list id, and a
list page carrying one item. -/
def c3UserPage2 : ImdbPage :=
  { status := 200, scripts := [], findFwd := [], findRev := [], anchors := [],
    dataListId := some "ls12345678", scriptLsId := none }

/-- The list page reached through the found list id. -/
def c3ListPage : ImdbPage :=
  { status := 200, scripts := [], findFwd := [("M", "tt9")], findRev := [], anchors := [],
    dataListId := none, scriptLsId := none }

/-- Witness for the amended C3: the fetcher retries through the
direct-list endpoint when a list id is found. -/
theorem imdb_fallback_chain_witness :
    get_imdb_export_data (some c3UserPage2) (some c3ListPage) =
      ((get_imdb_list_data (some c3ListPage) "ls12345678").1,
        .watchlistPage :: (get_imdb_list_data (some c3ListPage) "ls12345678").2) :=
  (imdb_fallback_chain c3UserPage2 (some c3ListPage) rfl rfl).1 "ls12345678" (Or.inl rfl)
